import Mathlib

/-!
Verification of the GUARDIAN agent-orchestration core.

This file gives a shallow embedding, in Lean 4, of the agent pipeline of the
GUARDIAN repository (backend/app/agents): the uniform request/response
contract (agent_base.py), the five LLM-backed subagents that the claims
touch (triage_agent.py, symptoms_agent.py, first_aid_agent.py,
pediatric_agent.py, image_analysis_agent.py), the router (router.py) and the
orchestrator (main_agent.py).

Modelling conventions:
  * External collaborators (the Gemini text/vision capability, base64
    decoding, and the json library) are a parameter `CapEnv`: each capability
    call either raises (`Except.error`, carrying the Python exception text) or
    returns a string.  `json.loads` is likewise an environment parameter
    `loads`, since its exact grammar is irrelevant: only parse success or
    `JSONDecodeError` matters to the code under verification.
  * Python dicts are association lists (`JsonObj`) with first-match lookup
    and in-place overwrite on assignment; Python truthiness of strings,
    dicts and `None` is modelled explicitly where the source relies on it.
  * Python dynamic-type errors that the source can hit (`AttributeError`
    from `.get` on a non-dict, `TypeError` from iterating a non-iterable,
    pydantic validation of response fields) are modelled as `Except.error`
    and are caught by each agent `try/except` exactly as in the source.
  * The orchestrator (`MainAgent.handle`) awaits its subagents through
    `asyncio.gather(..., return_exceptions=True)`; its semantics therefore
    only depends on each subagent call producing either an `AgentResponse`
    or a raised exception.  The orchestrator is accordingly parametrised by
    `agentRun : String → AgentRequest → AgentOutcome`; instantiating it with
    the concrete agents below recovers the deployed system, while letting a
    mocked agent raise (as the spec test scenarios do) stays expressible.
  * The logging sink (`agent_logger`) is fire-and-forget observability and is
    not modelled; the argument expressions the source computes for it that
    can themselves raise (for example `len(data.get("steps", []))`) are kept.
  * `MainAgent.handleRun` additionally returns the list of subagent names the
    orchestrator invoked, in invocation order, so that statements such as
    "no other agent is executed" and "stage-2 agents still run" are about the
    embedding and not about an informal reading of it.
-/

/-- JSON-like Python values, as produced by `json.loads` and passed around in
`structured_data` dictionaries. -/
inductive JsonVal where
  | str : String → JsonVal
  | num : ℚ → JsonVal
  | boolean : Bool → JsonVal
  | null : JsonVal
  | arr : List JsonVal → JsonVal
  | obj : List (String × JsonVal) → JsonVal

/-- A Python dict with string keys (insertion ordered, unique keys in the
states the program actually builds). -/
abbrev JsonObj := List (String × JsonVal)

/-- First-match association-list lookup: Python `d[k]` / the hit side of
`d.get(k)`. -/
def alistLookup {β : Type} : List (String × β) → String → Option β
  | [], _ => none
  | (k1, v1) :: rest, k => if k1 = k then some v1 else alistLookup rest k

/-- Python `d.get(k, default)` on a dict. -/
def objGetD (o : JsonObj) (k : String) (d : JsonVal) : JsonVal :=
  (alistLookup o k).getD d

/-- Python dict assignment `d[k] = v`: overwrite in place if the key exists,
otherwise append. -/
def dictSet (o : JsonObj) (k : String) (v : JsonVal) : JsonObj :=
  if (alistLookup o k).isSome then
    o.map (fun kv => if kv.1 = k then (k, v) else kv)
  else
    o ++ [(k, v)]

/-- Python `d.update(upd)`: assign each key of `upd` into `d`, left to right. -/
def dictUpdate (base upd : JsonObj) : JsonObj :=
  upd.foldl (fun b kv => dictSet b kv.1 kv.2) base

/-- Truthiness of a Python string (`""` is falsy). -/
def strTruthy (s : String) : Bool :=
  !s.data.isEmpty

/-- Truthiness of an optional string field (`None` and `""` are falsy). -/
def optStrTruthy : Option String → Bool
  | none => false
  | some s => strTruthy s

/-- Python `x or d` for an optional string `x`: `d` when `x` is `None` or
empty, else `x`. -/
def pyOr (x : Option String) (d : String) : String :=
  match x with
  | none => d
  | some s => if strTruthy s then s else d

/-- Truthiness of an `Optional[Dict]` field (`None` and `{}` are falsy). -/
def objTruthy : Option JsonObj → Bool
  | some o => !o.isEmpty
  | none => false

/-- Python iteration over a value, as used by `list.extend`, `for ... in` and
`str.join`: lists yield elements, strings yield one-character strings, dicts
yield their keys; other values raise `TypeError`. -/
def pyIter : JsonVal → Except String (List JsonVal)
  | .arr xs => .ok xs
  | .str s => .ok (s.data.map (fun c => .str (String.singleton c)))
  | .obj o => .ok (o.map (fun kv => .str kv.1))
  | _ => .error "TypeError: object is not iterable"

/-- Python `len(v)` (raises on numbers, booleans and `None`). -/
def pyLen : JsonVal → Except String Nat
  | .arr xs => .ok xs.length
  | .str s => .ok s.data.length
  | .obj o => .ok o.length
  | _ => .error "TypeError: object has no len"

/-- The element check `str.join` performs: every joined item must be a string. -/
def asPyStr : JsonVal → Except String String
  | .str s => .ok s
  | _ => .error "TypeError: sequence item is not a str"

/-- Python `sep.join(v)`: iterate `v` and concatenate its items, which must
all be strings. -/
def pyJoin (sep : String) (v : JsonVal) : Except String String := do
  let items ← pyIter v
  let strs ← items.mapM asPyStr
  pure (String.intercalate sep strs)

mutual

/-- Python `str(v)` as interpolated into f-strings.  Only the rendering of
strings, booleans and `None` is observable in any claim; container rendering
is an approximation of `repr`. -/
def pyStr : JsonVal → String
  | .str s => s
  | .num q => toString q
  | .boolean b => if b then "True" else "False"
  | .null => "None"
  | .arr xs => "[" ++ pyStrSeq xs ++ "]"
  | .obj o => "\x7b" ++ pyStrObjSeq o ++ "\x7d"

/-- Comma-separated rendering of a list of values. -/
def pyStrSeq : List JsonVal → String
  | [] => ""
  | [x] => pyStr x
  | x :: y :: rest => pyStr x ++ ", " ++ pyStrSeq (y :: rest)

/-- Comma-separated rendering of dict entries. -/
def pyStrObjSeq : List (String × JsonVal) → String
  | [] => ""
  | [(k, v)] => k ++ ": " ++ pyStr v
  | (k, v) :: e :: rest => k ++ ": " ++ pyStr v ++ ", " ++ pyStrObjSeq (e :: rest)

end

/-- pydantic validation of an `Optional[str]` response field (strict: a
non-string, non-None value raises `ValidationError`, which the agent
`except` block turns into `ok=false`). -/
def pyStrField : JsonVal → Except String (Option String)
  | .str s => .ok (some s)
  | .null => .ok none
  | _ => .error "ValidationError: str expected"

/-- pydantic validation of an `Optional[float]` response field. -/
def pyFloatField : JsonVal → Except String (Option ℚ)
  | .num q => .ok (some q)
  | .null => .ok none
  | _ => .error "ValidationError: float expected"

/-- `AgentRequest` (agent_base.py): the uniform request every agent accepts. -/
structure AgentRequest where
  user_id : Option String := none
  message : String
  image_base64 : Option String := none
  context : Option JsonObj := none
  metadata : Option JsonObj := none
  conversation_id : Option String := none

/-- `AgentResponse` (agent_base.py): the uniform response every agent
returns.  Scores are exact rationals standing for the Python floats the
source manipulates (1.0, 0.6, 0.5, 0.2, 0.0). -/
structure AgentResponse where
  agent_name : String
  ok : Bool
  result_text : Option String := none
  structured_data : Option JsonObj := none
  citations : Option (List JsonVal) := none
  score : Option ℚ := none
  diagnostics : Option JsonObj := none
  invoked_subagents : Option (List String) := none

/-- One trace entry appended by the orchestrator: `data` is `none` when the
key is absent (safety entry) or the response carried `structured_data=None`;
both are falsy for `item.get("data", {})` in the synthesizer. -/
structure TraceEntry where
  agent : String
  ok : Bool
  result : Option String
  data : Option JsonObj

/-- The dictionary `MainAgent.handle` returns. -/
structure FinalResponse where
  final_text : String
  agent_trace : List TraceEntry
  citations : List JsonVal
  urgency_level : String

/-- Outcome of awaiting one subagent task under
`asyncio.gather(..., return_exceptions=True)`: an `AgentResponse`, or the
exception object the task raised. -/
inductive AgentOutcome where
  | resp : AgentResponse → AgentOutcome
  | exn : String → AgentOutcome

/-- The external collaborators every agent consumes: the text/vision
capability gateway, base64 decoding, and the json library (`loads` failure is
`json.JSONDecodeError`; `dumps` is total on dict-shaped values). -/
structure CapEnv where
  generateText : String → ℚ → Except String String
  analyzeImage : List Nat → String → Except String String
  b64decode : String → Except String (List Nat)
  loads : String → Except Unit JsonVal
  dumps : JsonVal → String

/-- `clean_text = response_text.replace("```json", "").replace("```", "").strip()`
as every agent and the router perform before `json.loads`. -/
def cleanText (t : String) : String :=
  ((t.replace "```json" "").replace "```" "").trim

/-- Splitting a character list at newline characters, Python
`str.split(chr(10))` (so `""` splits to `[""]`). -/
def splitOnNl : List Char → List (List Char)
  | [] => [[]]
  | c :: rest =>
    match splitOnNl rest with
    | [] => [[]]
    | l :: ls => if c = '\n' then [] :: l :: ls else (c :: l) :: ls

/-- The list comprehension in the FirstAid fallback:
`[line for line in response_text.split(chr(10)) if line.strip()]`. -/
def firstAidLines (t : String) : List String :=
  ((splitOnNl t.data).filter (fun l => l.any (fun c => !c.isWhitespace))).map
    (fun l => String.mk l)

/-- The triage score table (triage_agent.py line 57):
`score_map = {"RED": 1.0, "YELLOW": 0.6, "GREEN": 0.2}`. -/
def score_map : List (String × ℚ) :=
  [("RED", 1), ("YELLOW", 0.6), ("GREEN", 0.2)]

/-- Python `score_map.get(x, default)` where `x` is an arbitrary value coming
from `data.get("level", "YELLOW")`: only a string can hit a key. -/
def mapGetD (m : List (String × ℚ)) (k : JsonVal) (d : ℚ) : ℚ :=
  match k with
  | .str s => (alistLookup m s).getD d
  | _ => d

/-- The triage prompt (triage_agent.py lines 20-41); surrounding indentation
whitespace of the Python triple-quoted literal is elided. -/
def triagePrompt (env : CapEnv) (req : AgentRequest) : String :=
  let context_str :=
    match req.context with
    | some c => if c.isEmpty then "" else "Context: " ++ env.dumps (.obj c)
    | none => ""
  "Determine the triage level and next steps for this medical situation.\n"
    ++ "User Message: \"" ++ req.message ++ "\"\n" ++ context_str ++ "\n"
    ++ "Levels:\n- RED: Life-threatening emergency (Call 911/Emergency)\n"
    ++ "- YELLOW: Urgent (Seek medical attention today/Urgent Care)\n"
    ++ "- GREEN: Non-urgent (Home care/Routine appointment)\n\n"
    ++ "Output JSON ONLY:\n\x7b\n\"level\": \"RED|YELLOW|GREEN\",\n"
    ++ "\"reasoning\": \"short explanation\",\n"
    ++ "\"action\": \"Call 911 | Go to ER | Call Doctor | Home Care\",\n"
    ++ "\"steps\": [\"step 1\", \"step 2\"]\n\x7d"

/-- The parse-failure fallback dict of the triage agent (lines 49-54). -/
def triageFallback : JsonObj :=
  [("level", .str "YELLOW"),
   ("reasoning", .str "Could not parse triage result, defaulting to caution."),
   ("action", .str "Consult a healthcare professional"),
   ("steps", .arr [])]

/-- Body of the `try` block of `TriageAgent.handle` (triage_agent.py lines
18-75).  A non-dict parse result raises `AttributeError` at the first
`data.get` call, landing in the outer `except`. -/
def TriageAgent.run (env : CapEnv) (req : AgentRequest) : Except String AgentResponse :=
  match env.generateText (triagePrompt env req) 0 with
  | .error e => .error e
  | .ok response_text =>
    let data : JsonVal :=
      match env.loads (cleanText response_text) with
      | .ok d => d
      | .error _ => .obj triageFallback
    match data with
    | .obj o =>
      let score := mapGetD score_map (objGetD o "level" (.str "YELLOW")) 0.5
      .ok { agent_name := "triage_agent", ok := true,
            result_text := some ("Triage Level: " ++ pyStr (objGetD o "level" .null)
              ++ ". " ++ pyStr (objGetD o "action" .null)),
            structured_data := some o,
            score := some score }
    | _ => .error "AttributeError"

/-- `TriageAgent.handle`: the `try/except` wrapper around the body. -/
def TriageAgent.handle (env : CapEnv) (req : AgentRequest) : AgentResponse :=
  match TriageAgent.run env req with
  | .ok r => r
  | .error e =>
    { agent_name := "triage_agent", ok := false,
      result_text := some ("Error in triage: " ++ e) }

/-- The symptoms prompt (symptoms_agent.py lines 20-32), whitespace elided. -/
def symptomsPrompt (req : AgentRequest) : String :=
  "Extract symptoms from the user message.\nUser Message: \"" ++ req.message
    ++ "\"\n\nOutput JSON ONLY:\n\x7b\n\"symptoms\": [\"list\", \"of\", \"symptoms\"],\n"
    ++ "\"duration\": \"duration string or null\",\n"
    ++ "\"severity_indicators\": [\"severe pain\", \"high fever\", etc],\n"
    ++ "\"red_flags\": true/false (if any emergency keywords present like chest pain, difficulty breathing),\n"
    ++ "\"urgency_score\": 0.0 to 1.0 (1.0 is immediate emergency)\n\x7d"

/-- The parse-failure fallback dict of the symptoms agent (lines 41-47). -/
def symptomsFallback : JsonObj :=
  [("symptoms", .arr []),
   ("duration", .null),
   ("severity_indicators", .arr []),
   ("red_flags", .boolean false),
   ("urgency_score", .num 0)]

/-- Body of the `try` block of `SymptomsAgent.handle` (symptoms_agent.py
lines 18-64): the joined symptom list feeds the result text and
`data.get("urgency_score", 0.0)` feeds the response score. -/
def SymptomsAgent.run (env : CapEnv) (req : AgentRequest) : Except String AgentResponse :=
  match env.generateText (symptomsPrompt req) 0 with
  | .error e => .error e
  | .ok response_text =>
    let data : JsonVal :=
      match env.loads (cleanText response_text) with
      | .ok d => d
      | .error _ => .obj symptomsFallback
    match data with
    | .obj o =>
      match pyJoin ", " (objGetD o "symptoms" (.arr [])) with
      | .error e => .error e
      | .ok joined =>
        match pyFloatField (objGetD o "urgency_score" (.num 0)) with
        | .error e => .error e
        | .ok scoreOpt =>
          .ok { agent_name := "symptoms_agent", ok := true,
                result_text := some ("Identified symptoms: " ++ joined),
                structured_data := some o,
                score := scoreOpt }
    | _ => .error "AttributeError"

/-- `SymptomsAgent.handle`: the `try/except` wrapper around the body. -/
def SymptomsAgent.handle (env : CapEnv) (req : AgentRequest) : AgentResponse :=
  match SymptomsAgent.run env req with
  | .ok r => r
  | .error e =>
    { agent_name := "symptoms_agent", ok := false,
      result_text := some ("Error analyzing symptoms: " ++ e) }

/-- The RAG context block FirstAid builds from `request.context["rag_chunks"]`
(first_aid_agent.py lines 20-22); joining a malformed chunk list raises. -/
def firstAidContext (req : AgentRequest) : Except String String :=
  match req.context with
  | none => .ok ""
  | some c =>
    if ¬c.isEmpty ∧ (alistLookup c "rag_chunks").isSome then
      pyJoin "\n" ((alistLookup c "rag_chunks").getD .null)
    else .ok ""

/-- The first-aid prompt (first_aid_agent.py lines 24-42), whitespace elided. -/
def firstAidPrompt (req : AgentRequest) (rag_context : String) : String :=
  "Provide step-by-step first aid instructions for: \"" ++ req.message
    ++ "\"\n\nUse this authoritative context if relevant:\n" ++ rag_context
    ++ "\n\nRules:\n1. Be concise and clear.\n2. Number the steps.\n3. Do NOT diagnose.\n"
    ++ "4. If emergency, start with \"Call Emergency Services\".\n\n"
    ++ "Output JSON ONLY:\n\x7b\n\"title\": \"First Aid for ...\",\n"
    ++ "\"steps\": [\"1. ...\", \"2. ...\"],\n\"warnings\": [\"warning 1\", \"warning 2\"]\n\x7d"

/-- The parse-failure fallback dict of the first-aid agent (lines 51-55): the
raw capability text split into its non-blank lines. -/
def firstAidFallback (response_text : String) : JsonObj :=
  [("title", .str "First Aid Instructions"),
   ("steps", .arr ((firstAidLines response_text).map (fun l => .str l))),
   ("warnings", .arr [])]

/-- Body of the `try` block of `FirstAidAgent.handle` (first_aid_agent.py
lines 18-72).  The logging call computes `len(data.get("steps", []))`, which
raises on a non-sized value. -/
def FirstAidAgent.run (env : CapEnv) (req : AgentRequest) : Except String AgentResponse :=
  match firstAidContext req with
  | .error e => .error e
  | .ok rag_context =>
    match env.generateText (firstAidPrompt req rag_context) 0.2 with
    | .error e => .error e
    | .ok response_text =>
      let data : JsonVal :=
        match env.loads (cleanText response_text) with
        | .ok d => d
        | .error _ => .obj (firstAidFallback response_text)
      match data with
      | .obj o =>
        match pyLen (objGetD o "steps" (.arr [])) with
        | .error e => .error e
        | .ok _ =>
          .ok { agent_name := "first_aid_agent", ok := true,
                result_text := some ("First Aid: " ++ pyStr (objGetD o "title" .null)),
                structured_data := some o,
                score := some 1 }
      | _ => .error "AttributeError"

/-- `FirstAidAgent.handle`: the `try/except` wrapper around the body. -/
def FirstAidAgent.handle (env : CapEnv) (req : AgentRequest) : AgentResponse :=
  match FirstAidAgent.run env req with
  | .ok r => r
  | .error e =>
    { agent_name := "first_aid_agent", ok := false,
      result_text := some ("Error generating first aid: " ++ e) }

/-- The pediatric prompt (pediatric_agent.py lines 19-34), whitespace elided. -/
def pediatricPrompt (req : AgentRequest) : String :=
  "You are a pediatric medical assistant.\nUser Message: \"" ++ req.message
    ++ "\"\n\n1. Check if the age of the child is mentioned.\n"
    ++ "2. If NOT mentioned, your primary action is to ASK FOR THE AGE.\n"
    ++ "3. If mentioned, provide age-appropriate advice.\n\n"
    ++ "Output JSON ONLY:\n\x7b\n\"age_detected\": \"age string or null\",\n"
    ++ "\"needs_age_clarification\": true/false,\n\"advice\": \"advice string\",\n"
    ++ "\"special_considerations\": [\"list of considerations\"]\n\x7d"

/-- The parse-failure fallback dict of the pediatric agent (lines 42-47). -/
def pediatricFallback : JsonObj :=
  [("age_detected", .null),
   ("needs_age_clarification", .boolean true),
   ("advice", .str "Please specify the age of the child so I can provide accurate advice."),
   ("special_considerations", .arr [])]

/-- Body of the `try` block of `PediatricAgent.handle` (pediatric_agent.py
lines 18-64): `result_text` is `data.get("advice", "")`, validated as an
optional string by the response model. -/
def PediatricAgent.run (env : CapEnv) (req : AgentRequest) : Except String AgentResponse :=
  match env.generateText (pediatricPrompt req) 0.2 with
  | .error e => .error e
  | .ok response_text =>
    let data : JsonVal :=
      match env.loads (cleanText response_text) with
      | .ok d => d
      | .error _ => .obj pediatricFallback
    match data with
    | .obj o =>
      match pyStrField (objGetD o "advice" (.str "")) with
      | .error e => .error e
      | .ok advice =>
        .ok { agent_name := "pediatric_agent", ok := true,
              result_text := advice,
              structured_data := some o,
              score := some 1 }
    | _ => .error "AttributeError"

/-- `PediatricAgent.handle`: the `try/except` wrapper around the body. -/
def PediatricAgent.handle (env : CapEnv) (req : AgentRequest) : AgentResponse :=
  match PediatricAgent.run env req with
  | .ok r => r
  | .error e =>
    { agent_name := "pediatric_agent", ok := false,
      result_text := some ("Error in pediatric agent: " ++ e) }

/-- The image-analysis prompt (image_analysis_agent.py lines 32-49). -/
def imagePrompt : String :=
  "Analyze this medical image.\nIdentify if it shows a:\n1. Medication (pills, bottle, blister pack)\n"
    ++ "2. Wound / Injury / Rash\n3. Medical Device\n4. Non-medical object (if so, reject)\n\n"
    ++ "Output JSON ONLY:\n\x7b\n\"type\": \"medication|wound|device|other\",\n"
    ++ "\"is_medical\": true/false,\n\"description\": \"detailed description\",\n"
    ++ "\"severity_hint\": \"low|medium|high|unknown\",\n\"detected_text\": \"any text on labels\",\n"
    ++ "\"recommended_next_steps\": [\"step 1\", \"step 2\"]\n\x7d"

/-- The parse-failure fallback dict of the image agent (lines 60-66): the raw
capability text becomes the description and `is_medical` fails safe to true. -/
def imageFallback (response_text : String) : JsonObj :=
  [("type", .str "unknown"),
   ("is_medical", .boolean true),
   ("description", .str response_text),
   ("severity_hint", .str "unknown"),
   ("recommended_next_steps", .arr [])]

/-- Body of the `try` block of `ImageAnalysisAgent.handle`
(image_analysis_agent.py lines 27-84), entered only when image data is
present. -/
def ImageAnalysisAgent.run (env : CapEnv) (img : String) : Except String AgentResponse :=
  match env.b64decode img with
  | .error e => .error e
  | .ok image_bytes =>
    match env.analyzeImage image_bytes imagePrompt with
    | .error e => .error e
    | .ok response_text =>
      let data : JsonVal :=
        match env.loads (cleanText response_text) with
        | .ok d => d
        | .error _ => .obj (imageFallback response_text)
      match data with
      | .obj o =>
        match pyStrField (objGetD o "description" (.str "")) with
        | .error e => .error e
        | .ok desc =>
          .ok { agent_name := "image_analysis_agent", ok := true,
                result_text := desc,
                structured_data := some o,
                score := some 1 }
      | _ => .error "AttributeError"

/-- The constant response of the image agent when no image data is present
(lines 20-25): it returns before any capability call. -/
def noImageResponse : AgentResponse :=
  { agent_name := "image_analysis_agent", ok := false,
    result_text := some "No image provided." }

/-- `ImageAnalysisAgent.handle`: the missing-image guard sits before the
`try`, so absence of image data returns immediately. -/
def ImageAnalysisAgent.handle (env : CapEnv) (req : AgentRequest) : AgentResponse :=
  if optStrTruthy req.image_base64 then
    match ImageAnalysisAgent.run env (req.image_base64.getD "") with
    | .ok r => r
    | .error e =>
      { agent_name := "image_analysis_agent", ok := false,
        result_text := some ("Error analyzing image: " ++ e) }
  else
    noImageResponse

/-- The classification prompt of the router (router.py lines 46-60),
whitespace elided. -/
def routerPrompt (req : AgentRequest) : String :=
  "Classify this medical query to select the best experts.\nQuery: \"" ++ req.message
    ++ "\"\n\nExperts:\n- symptoms_agent: User describes symptoms or feeling unwell.\n"
    ++ "- first_aid_agent: User asks how to treat an injury, burn, choking, etc.\n"
    ++ "- pediatric_agent: Query involves a child, baby, or toddler.\n"
    ++ "- rag_lookup_agent: General medical questions, definitions, or research.\n\n"
    ++ "Output JSON ONLY:\n\x7b\n\"experts\": [\"list\", \"of\", \"expert_names\"]\n\x7d"

/-- The fixed expert menu the router accepts from classification
(router.py line 71). -/
def routerMenu : List String :=
  ["symptoms_agent", "first_aid_agent", "pediatric_agent", "rag_lookup_agent"]

/-- The loop over classified experts (router.py lines 70-73): append each
value that is one of the four menu names and not yet selected; every other
value, including non-strings, is silently discarded. -/
def addExperts : List String → List JsonVal → List String
  | sel, [] => sel
  | sel, e :: rest =>
    match e with
    | .str s => addExperts (if s ∈ routerMenu ∧ ¬s ∈ sel then sel ++ [s] else sel) rest
    | _ => addExperts sel rest

/-- The deterministic scaffold of the router (lines 38-42): Safety always
first, ImageAnalysis appended when image data is present (truthy). -/
def routerScaffold (req : AgentRequest) : List String :=
  let selected := ["safety_agent"]
  if optStrTruthy req.image_base64 then selected ++ ["image_analysis_agent"]
  else selected

/-- The two expansion rules after classification (lines 76-83):
Symptoms brings Triage, FirstAid brings RagLookup, each only if absent. -/
def routerExpand (sel : List String) : List String :=
  let s3 := if "symptoms_agent" ∈ sel ∧ ¬"triage_agent" ∈ sel
    then sel ++ ["triage_agent"] else sel
  if "first_aid_agent" ∈ s3 ∧ ¬"rag_lookup_agent" ∈ s3
    then s3 ++ ["rag_lookup_agent"] else s3

/-- The fixed fallback of the outer `except` (router.py line 103). -/
def routerFallback : List String :=
  ["safety_agent", "rag_lookup_agent"]

/-- `AgentRouter.route` (router.py lines 30-103).  A `json.JSONDecodeError`
is caught by the inner handler, which only appends RagLookup to the scaffold
(lines 85-88); any other error — the capability call raising, `.get` on a
non-dict classification result, iterating a non-iterable `experts` value —
reaches the outer handler, which returns the fixed fallback pair. -/
def AgentRouter.route (cap : CapEnv) (req : AgentRequest) : List String :=
  let selected := routerScaffold req
  match cap.generateText (routerPrompt req) 0 with
  | .error _ => routerFallback
  | .ok response_text =>
    match cap.loads (cleanText response_text) with
    | .error _ =>
      if "rag_lookup_agent" ∈ selected then selected
      else selected ++ ["rag_lookup_agent"]
    | .ok data =>
      match data with
      | .obj o =>
        match pyIter (objGetD o "experts" (.arr [])) with
        | .error _ => routerFallback
        | .ok experts => routerExpand (addExperts selected experts)
      | _ => routerFallback

/-- The orchestrator environment: the shared capability environment (used by
the router and the synthesis call), the observable behaviour of each
subagent task, and the request id generated for the run. -/
structure OrchEnv where
  cap : CapEnv
  agentRun : String → AgentRequest → AgentOutcome
  requestId : String

/-- The registered agent names, the keys of `self.agents`
(main_agent.py lines 27-35). -/
def agentKeys : List String :=
  ["safety_agent", "rag_lookup_agent", "image_analysis_agent", "symptoms_agent",
   "triage_agent", "first_aid_agent", "pediatric_agent"]

/-- The fixed stage-1 membership set (main_agent.py line 88). -/
def stage1Set : List String :=
  ["image_analysis_agent", "symptoms_agent", "rag_lookup_agent"]

/-- Lines 42-44 of main_agent.py: ensure `metadata` is a dict and store the
generated request id under `request_id`. -/
def withRequestId (rid : String) (req : AgentRequest) : AgentRequest :=
  { req with metadata := some (dictSet (req.metadata.getD []) "request_id" (.str rid)) }

/-- The names a stage actually creates tasks for:
`[... for name in names if name in self.agents]`. -/
def runNames (names : List String) : List String :=
  names.filter (fun n => n ∈ agentKeys)

/-- The pairing of stage names with gathered outcomes performed by
`for i, res in enumerate(stage_results): agent_name = stage_agents[i]`:
outcomes come from the task list (filtered to known agents) while names are
indexed in the unfiltered stage list. -/
def stagePairs (run : String → AgentOutcome) (names : List String) :
    List (String × AgentOutcome) :=
  names.zip ((runNames names).map run)

/-- The trace entries a stage loop appends: one entry per outcome that is an
`AgentResponse`; exceptions are only logged (main_agent.py lines 101-115 and
128-138). -/
def stageTrace : List (String × AgentOutcome) → List TraceEntry
  | [] => []
  | p :: rest =>
    match p.2 with
    | .resp r => { agent := p.1, ok := r.ok, result := r.result_text,
                   data := r.structured_data } :: stageTrace rest
    | .exn _ => stageTrace rest

/-- The `context_update` dict of the stage-1 loop (lines 110-111): each
response with truthy `structured_data` is recorded under its agent name (the
loop performs dict assignments; since a later assignment to the same key
wins under `dictUpdate` below exactly as it does in the dict, keeping every
assignment in order is equivalent). -/
def stage1ContextUpdate : List (String × AgentOutcome) → JsonObj
  | [] => []
  | p :: rest =>
    match p.2 with
    | .resp r =>
      match r.structured_data with
      | some o =>
        if o.isEmpty then stage1ContextUpdate rest
        else (p.1, JsonVal.obj o) :: stage1ContextUpdate rest
      | none => stage1ContextUpdate rest
    | .exn _ => stage1ContextUpdate rest

/-- What one stage-1 outcome contributes to `rag_chunks` (lines 112-113):
`rag_chunks.extend(res.structured_data.get("chunks", []))` for a RagLookup
response with truthy structured data; extending with a non-iterable raises. -/
def ragContribution (p : String × AgentOutcome) : Except String (List JsonVal) :=
  match p.2 with
  | .resp r =>
    if p.1 = "rag_lookup_agent" ∧ objTruthy r.structured_data then
      pyIter (objGetD (r.structured_data.getD []) "chunks" (.arr []))
    else .ok []
  | .exn _ => .ok []

/-- The accumulated `rag_chunks` list over the stage-1 outcomes, in order. -/
def stage1RagChunks : List (String × AgentOutcome) → Except String (List JsonVal)
  | [] => .ok []
  | p :: rest =>
    match ragContribution p with
    | .error e => .error e
    | .ok xs =>
      match stage1RagChunks rest with
      | .error e => .error e
      | .ok ys => .ok (xs ++ ys)

/-- The MERGE step (main_agent.py lines 117-122): the request context after
stage 1 — prior context (or `{}`), updated with `context_update`, with
`rag_chunks` set when any chunk was collected.  An exception raised while
collecting chunks propagates out of `handle`. -/
def MainAgent.mergeContext (req : AgentRequest) (pairs : List (String × AgentOutcome)) :
    Except String JsonObj :=
  match stage1RagChunks pairs with
  | .error e => .error e
  | .ok ragChunks =>
    let ctx1 := dictUpdate (req.context.getD []) (stage1ContextUpdate pairs)
    .ok (if ragChunks.isEmpty then ctx1 else dictSet ctx1 "rag_chunks" (.arr ragChunks))

/-- The comparison `data.get("level", "GREEN") == "RED"` performs a Python
string comparison: only a string value can match. -/
def levelOf (o : JsonObj) : Option String :=
  match objGetD o "level" (.str "GREEN") with
  | .str s => some s
  | _ => none

/-- One iteration of the synthesis loop (main_agent.py lines 157-172) on the
accumulator `(synthesis_context, urgency)`: concatenate the labelled result
text, and escalate urgency from a truthy triage `data` dict — RED always
wins, YELLOW only upgrades a non-RED level, nothing ever downgrades. -/
def synthStep (acc : String × String) (item : TraceEntry) : String × String :=
  (acc.1 ++ "\n--- " ++ item.agent.toUpper ++ " OUTPUT ---\n"
     ++ (match item.result with | some s => s | none => "None") ++ "\n",
   match item.data with
   | some o =>
     if item.agent = "triage_agent" ∧ ¬o.isEmpty then
       if levelOf o = some "RED" then "RED"
       else if levelOf o = some "YELLOW" ∧ acc.2 ≠ "RED" then "YELLOW"
       else acc.2
     else acc.2
   | none => acc.2)

/-- The synthesis prompt (main_agent.py lines 175-193), whitespace elided. -/
def synthPrompt (message synthesis_context : String) : String :=
  "You are Guardian AI, a medical assistant.\n"
    ++ "Synthesize a final response for the user based on the expert agent outputs below.\n\n"
    ++ "User Message: \"" ++ message ++ "\"\n\nExpert Outputs:\n" ++ synthesis_context
    ++ "\n\nInstructions:\n1. Combine the advice into a coherent, empathetic response.\n"
    ++ "2. If Triage is RED, start with \"EMERGENCY: Please call emergency services immediately.\"\n"
    ++ "3. Use the First Aid steps if provided.\n4. Use the RAG context to support your answer.\n"
    ++ "5. Do NOT mention \"Agent\" names to the user. Just speak naturally.\n6. Be concise.\n\nResponse:"

/-- `MainAgent._synthesize_response` (main_agent.py lines 148-202): fold the
trace into the synthesis context and the derived urgency (citations are
initialised empty and never appended — the known gap), then issue the final
capability call. -/
def MainAgent.synthesizeResponse (env : OrchEnv) (req : AgentRequest)
    (trace : List TraceEntry) : Except String FinalResponse :=
  let acc := trace.foldl synthStep ("", "GREEN")
  match env.cap.generateText (synthPrompt req.message acc.1) 0.7 with
  | .error e => .error e
  | .ok final_text =>
    .ok { final_text := final_text, agent_trace := trace, citations := [],
          urgency_level := acc.2 }

/-- Stages 1 and 2 plus merge and synthesis (main_agent.py lines 84-146),
entered after the safety gate.  Returns the orchestrator result (or the
propagated exception) together with the invocation log. -/
def MainAgent.runStages (env : OrchEnv) (req : AgentRequest) (trace0 : List TraceEntry)
    (names : List String) (invoked0 : List String) :
    Except String FinalResponse × List String :=
  let stage1names := names.filter (fun n => n ∈ stage1Set)
  let stage2names := names.filter (fun n => ¬n ∈ stage1Set)
  let pairs1 := stagePairs (fun n => env.agentRun n req) stage1names
  let trace1 := trace0 ++ stageTrace pairs1
  match MainAgent.mergeContext req pairs1 with
  | .error e => (.error e, invoked0 ++ runNames stage1names)
  | .ok ctx2 =>
    let req2 := { req with context := some ctx2 }
    let pairs2 := stagePairs (fun n => env.agentRun n req2) stage2names
    let trace2 := trace1 ++ stageTrace pairs2
    (MainAgent.synthesizeResponse env req2 trace2,
     invoked0 ++ runNames stage1names ++ runNames stage2names)

/-- The generic refusal of the safety short-circuit (main_agent.py line 64). -/
def safetyRefusal : String :=
  "I cannot process this request due to safety guidelines."

/-- `MainAgent.handle` (main_agent.py lines 37-146) instrumented with the
invocation log: route, run the safety gate (whose `ok=false` short-circuits
with urgency RED, and whose raised exception propagates), then delegate to
the two stages.  The first component is the returned dict or the propagated
exception. -/
def MainAgent.handleRun (env : OrchEnv) (req0 : AgentRequest) :
    Except String FinalResponse × List String :=
  let req := withRequestId env.requestId req0
  let selected := AgentRouter.route env.cap req
  if "safety_agent" ∈ selected then
    match env.agentRun "safety_agent" req with
    | .exn e => (.error e, ["safety_agent"])
    | .resp s =>
      let entry : TraceEntry :=
        { agent := "safety_agent", ok := s.ok, result := s.result_text, data := none }
      if s.ok then
        MainAgent.runStages env req [entry]
          (selected.filter (fun n => n ≠ "safety_agent")) ["safety_agent"]
      else
        (.ok { final_text := pyOr s.result_text safetyRefusal,
               agent_trace := [entry], citations := [], urgency_level := "RED" },
         ["safety_agent"])
  else
    MainAgent.runStages env req [] selected []

/-- The orchestrator entry point as seen by callers. -/
def MainAgent.handle (env : OrchEnv) (req : AgentRequest) : Except String FinalResponse :=
  (MainAgent.handleRun env req).1

/-! Concrete fixtures used by the witness and counterexample theorems below:
small capability environments (constant collaborator behaviours, each a
plausible concrete run of the external services) and small requests. -/

/-- A plain text request. -/
def wReqPlain : AgentRequest := { message := "hi" }

/-- A request carrying image data. -/
def wReqImg : AgentRequest := { message := "hi", image_base64 := some "img" }

/-- Environment in which every capability call raises. -/
def wEnvErr : CapEnv :=
  { generateText := fun _ _ => .error "boom",
    analyzeImage := fun _ _ => .error "boom",
    b64decode := fun _ => .ok [],
    loads := fun _ => .error (),
    dumps := fun _ => "" }

/-- Environment in which the capability returns text that is not JSON (so
`json.loads` raises `JSONDecodeError` on it). -/
def wEnvNoJson : CapEnv :=
  { generateText := fun _ _ => .ok "not json",
    analyzeImage := fun _ _ => .ok "not json",
    b64decode := fun _ => .ok [],
    loads := fun _ => .error (),
    dumps := fun _ => "" }

/-- A classification answer listing Symptoms twice, FirstAid, and an unknown
expert name. -/
def wExpertsObj : JsonVal :=
  .obj [("experts", .arr [.str "symptoms_agent", .str "symptoms_agent",
    .str "first_aid_agent", .str "unknown_agent"])]

/-- Environment whose classification call parses to `wExpertsObj`. -/
def wEnvExperts : CapEnv :=
  { wEnvNoJson with loads := fun _ => .ok wExpertsObj }

/-- A Safety response flagging the request as unsafe. -/
def wSafetyBlock : AgentResponse :=
  { agent_name := "safety_agent", ok := false, result_text := some "nope" }

/-- A Safety response passing the request. -/
def wSafetyPass : AgentResponse :=
  { agent_name := "safety_agent", ok := true, result_text := some "Safe" }

/-- A RagLookup response carrying chunks A and B. -/
def wRagResp : AgentResponse :=
  { agent_name := "rag_lookup_agent", ok := true, result_text := some "found",
    structured_data := some [("chunks", JsonVal.arr [JsonVal.str "A", JsonVal.str "B"])] }

/-- A Symptoms response with structured data. -/
def wSymResp : AgentResponse :=
  { agent_name := "symptoms_agent", ok := true, result_text := some "sym",
    structured_data := some [("red_flags", JsonVal.boolean false)] }

/-- A Triage response with level RED. -/
def wTriageRed : AgentResponse :=
  { agent_name := "triage_agent", ok := true, result_text := some "t",
    structured_data := some [("level", JsonVal.str "RED")] }

/-- Orchestration environment whose Safety agent blocks the request. -/
def wOEnvUnsafe : OrchEnv :=
  { cap := wEnvExperts,
    agentRun := fun n _ =>
      if n = "safety_agent" then .resp wSafetyBlock else .resp wSafetyPass,
    requestId := "rid" }

/-- Orchestration environment in which Safety passes, the Symptoms task
raises, RagLookup returns chunks and Triage reports RED. -/
def wOEnvStage : OrchEnv :=
  { cap := wEnvExperts,
    agentRun := fun n _ =>
      if n = "safety_agent" then .resp wSafetyPass
      else if n = "symptoms_agent" then .exn "boom"
      else if n = "rag_lookup_agent" then .resp wRagResp
      else if n = "triage_agent" then .resp wTriageRed
      else .resp { agent_name := n, ok := true, result_text := some "r" },
    requestId := "rid" }

/-- A concrete stage-1 outcome list: a Symptoms response and a RagLookup
response with chunks A and B. -/
def wC6Pairs : List (String × AgentOutcome) :=
  [("symptoms_agent", .resp wSymResp), ("rag_lookup_agent", .resp wRagResp)]

/-- A trace containing a RED triage entry among other entries. -/
def wTraceRed : List TraceEntry :=
  [{ agent := "safety_agent", ok := true, result := some "Safe", data := none },
   { agent := "triage_agent", ok := true, result := some "t",
     data := some [("level", JsonVal.str "RED")] },
   { agent := "first_aid_agent", ok := true, result := some "f",
     data := some [("level", JsonVal.str "GREEN")] }]

/-- A trace containing no triage entry. -/
def wTraceNoTriage : List TraceEntry :=
  [{ agent := "safety_agent", ok := true, result := some "Safe", data := none }]

/-- Orchestration environment for exercising the synthesizer alone. -/
def wOEnvSynth : OrchEnv :=
  { cap := { generateText := fun _ _ => .ok "final",
             analyzeImage := fun _ _ => .ok "x",
             b64decode := fun _ => .ok [],
             loads := fun _ => .error (),
             dumps := fun _ => "" },
    agentRun := fun _ _ => .exn "unused",
    requestId := "rid" }

/-- The synthesizer output on `wTraceRed` under `wOEnvSynth`. -/
def wFinRed : FinalResponse :=
  { final_text := "final", agent_trace := wTraceRed, citations := [],
    urgency_level := "RED" }

/-- The synthesizer output on `wTraceNoTriage` under `wOEnvSynth`. -/
def wFinGreen : FinalResponse :=
  { final_text := "final", agent_trace := wTraceNoTriage, citations := [],
    urgency_level := "GREEN" }

/-- Environment whose triage classification parses to a RED level. -/
def wEnvTriageRed : CapEnv :=
  { wEnvNoJson with loads := fun _ => .ok (.obj [("level", JsonVal.str "RED")]) }

/-- The merged context produced from `wC6Pairs` over an empty prior context. -/
def wC6Ctx : JsonObj :=
  [("symptoms_agent", JsonVal.obj [("red_flags", JsonVal.boolean false)]),
   ("rag_lookup_agent", JsonVal.obj [("chunks", JsonVal.arr [JsonVal.str "A", JsonVal.str "B"])]),
   ("rag_chunks", JsonVal.arr [JsonVal.str "A", JsonVal.str "B"])]

/-- Environment whose capability output parses to the empty JSON object
(the capability returned the valid JSON text of an empty dict). -/
def wEnvEmptyObj : CapEnv :=
  { wEnvNoJson with loads := fun _ => .ok (.obj []) }

/-- The symptoms response produced when the capability output parses to the
empty object: a successful response carrying empty structured data. -/
def wEmptyResp : AgentResponse :=
  { agent_name := "symptoms_agent", ok := true,
    result_text := some "Identified symptoms: ",
    structured_data := some [],
    score := some 0 }

/-- A stage-1 outcome list holding only that empty-data response. -/
def wC6EmptyPairs : List (String × AgentOutcome) :=
  [("symptoms_agent", .resp wEmptyResp)]

/-- The triage response on JSON parse failure: the fallback dict with the
score obtained by applying the level mapping to the fallback level YELLOW. -/
def triageParseFailureResponse : AgentResponse :=
  { agent_name := "triage_agent", ok := true,
    result_text := some "Triage Level: YELLOW. Consult a healthcare professional",
    structured_data := some triageFallback,
    score := some 0.6 }

/-- The symptoms response on JSON parse failure. -/
def symptomsParseFailureResponse : AgentResponse :=
  { agent_name := "symptoms_agent", ok := true,
    result_text := some "Identified symptoms: ",
    structured_data := some symptomsFallback,
    score := some 0 }

/-- The first-aid response on JSON parse failure: the raw text split into
steps. -/
def firstAidParseFailureResponse (t : String) : AgentResponse :=
  { agent_name := "first_aid_agent", ok := true,
    result_text := some "First Aid: First Aid Instructions",
    structured_data := some (firstAidFallback t),
    score := some 1 }

/-- The pediatric response on JSON parse failure. -/
def pediatricParseFailureResponse : AgentResponse :=
  { agent_name := "pediatric_agent", ok := true,
    result_text := some "Please specify the age of the child so I can provide accurate advice.",
    structured_data := some pediatricFallback,
    score := some 1 }

/-! Helper lemmas about the router. -/

/-- `addExperts` only ever appends to the selection it was given. -/
theorem addExperts_extends : ∀ (experts : List JsonVal) (sel : List String),
    ∃ tl, addExperts sel experts = sel ++ tl
  | [], sel => ⟨[], by simp [addExperts]⟩
  | e :: rest, sel => by
    cases e with
    | str s =>
      simp only [addExperts]
      by_cases h : s ∈ routerMenu ∧ ¬s ∈ sel
      · rw [if_pos h]
        obtain ⟨tl, htl⟩ := addExperts_extends rest (sel ++ [s])
        exact ⟨s :: tl, by rw [htl]; simp⟩
      · rw [if_neg h]; exact addExperts_extends rest sel
    | num q => simpa [addExperts] using addExperts_extends rest sel
    | boolean b => simpa [addExperts] using addExperts_extends rest sel
    | null => simpa [addExperts] using addExperts_extends rest sel
    | arr xs => simpa [addExperts] using addExperts_extends rest sel
    | obj o => simpa [addExperts] using addExperts_extends rest sel

/-- Anything in the selection stays in it through `addExperts`. -/
theorem addExperts_mem_left (experts : List JsonVal) (sel : List String) (x : String)
    (h : x ∈ sel) : x ∈ addExperts sel experts := by
  obtain ⟨tl, htl⟩ := addExperts_extends experts sel
  rw [htl]
  exact List.mem_append_left tl h

/-- Every member of `addExperts sel experts` was already selected or is one
of the four menu names. -/
theorem addExperts_mem : ∀ (experts : List JsonVal) (sel : List String) (x : String),
    x ∈ addExperts sel experts → x ∈ sel ∨ x ∈ routerMenu
  | [], sel, x, h => .inl (by simpa [addExperts] using h)
  | e :: rest, sel, x, h => by
    cases e with
    | str s =>
      simp only [addExperts] at h
      by_cases hc : s ∈ routerMenu ∧ ¬s ∈ sel
      · rw [if_pos hc] at h
        rcases addExperts_mem rest (sel ++ [s]) x h with hx | hx
        · rcases List.mem_append.1 hx with hx | hx
          · exact .inl hx
          · simp only [List.mem_singleton] at hx
            subst hx
            exact .inr hc.1
        · exact .inr hx
      · rw [if_neg hc] at h
        exact addExperts_mem rest sel x h
    | num q => exact addExperts_mem rest sel x (by simpa [addExperts] using h)
    | boolean b => exact addExperts_mem rest sel x (by simpa [addExperts] using h)
    | null => exact addExperts_mem rest sel x (by simpa [addExperts] using h)
    | arr xs => exact addExperts_mem rest sel x (by simpa [addExperts] using h)
    | obj o => exact addExperts_mem rest sel x (by simpa [addExperts] using h)

/-- `addExperts` never introduces a duplicate: each expert is appended only
when absent, so any name occurring at most once keeps occurring at most
once. -/
theorem addExperts_count_le : ∀ (experts : List JsonVal) (sel : List String) (x : String),
    List.count x sel ≤ 1 → List.count x (addExperts sel experts) ≤ 1
  | [], sel, x, h => by simpa [addExperts] using h
  | e :: rest, sel, x, h => by
    cases e with
    | str s =>
      simp only [addExperts]
      by_cases hc : s ∈ routerMenu ∧ ¬s ∈ sel
      · rw [if_pos hc]
        refine addExperts_count_le rest (sel ++ [s]) x ?_
        rw [List.count_append]
        by_cases hxs : x = s
        · subst hxs
          have h0 : List.count x sel = 0 := List.count_eq_zero.2 hc.2
          simp [h0]
        · have h0 : List.count x [s] = 0 := List.count_eq_zero.2 (by simp [hxs])
          omega
      · rw [if_neg hc]
        exact addExperts_count_le rest sel x h
    | num q => exact addExperts_count_le rest sel x h
    | boolean b => exact addExperts_count_le rest sel x h
    | null => exact addExperts_count_le rest sel x h
    | arr xs => exact addExperts_count_le rest sel x h
    | obj o => exact addExperts_count_le rest sel x h

/-- The expansion rules only ever append to the classified selection. -/
theorem routerExpand_extends (sel : List String) : ∃ tl, routerExpand sel = sel ++ tl := by
  simp only [routerExpand]
  by_cases h1 : "symptoms_agent" ∈ sel ∧ ¬"triage_agent" ∈ sel
  · rw [if_pos h1]
    by_cases h2 : "first_aid_agent" ∈ sel ++ ["triage_agent"]
        ∧ ¬"rag_lookup_agent" ∈ sel ++ ["triage_agent"]
    · rw [if_pos h2, List.append_assoc]
      exact ⟨_, rfl⟩
    · rw [if_neg h2]
      exact ⟨_, rfl⟩
  · rw [if_neg h1]
    by_cases h2 : "first_aid_agent" ∈ sel ∧ ¬"rag_lookup_agent" ∈ sel
    · rw [if_pos h2]
      exact ⟨_, rfl⟩
    · rw [if_neg h2]
      exact ⟨[], (List.append_nil sel).symm⟩

/-- Members of the expanded selection: already present, or one of the two
expansion targets. -/
theorem routerExpand_mem (sel : List String) (x : String) (h : x ∈ routerExpand sel) :
    x ∈ sel ∨ x = "triage_agent" ∨ x = "rag_lookup_agent" := by
  simp only [routerExpand] at h
  split_ifs at h
  · rcases List.mem_append.1 h with h | h
    · rcases List.mem_append.1 h with h | h
      · exact .inl h
      · simp only [List.mem_singleton] at h
        tauto
    · simp only [List.mem_singleton] at h
      tauto
  · rcases List.mem_append.1 h with h | h
    · exact .inl h
    · simp only [List.mem_singleton] at h
      tauto
  · rcases List.mem_append.1 h with h | h
    · exact .inl h
    · simp only [List.mem_singleton] at h
      tauto
  · exact .inl h

/-- Members of the deterministic scaffold. -/
theorem routerScaffold_mem (req : AgentRequest) (x : String) (h : x ∈ routerScaffold req) :
    x = "safety_agent" ∨ x = "image_analysis_agent" := by
  simp only [routerScaffold] at h
  split_ifs at h
  · rcases List.mem_append.1 h with h | h
    · simp only [List.mem_singleton] at h
      tauto
    · simp only [List.mem_singleton] at h
      tauto
  · simp only [List.mem_singleton] at h
    tauto

/-- The scaffold starts with the Safety agent. -/
theorem routerScaffold_shape (req : AgentRequest) :
    ∃ tl, routerScaffold req = "safety_agent" :: tl := by
  simp only [routerScaffold]
  by_cases h : optStrTruthy req.image_base64 = true
  · rw [if_pos h]
    exact ⟨["image_analysis_agent"], rfl⟩
  · rw [if_neg h]
    exact ⟨[], rfl⟩

/-- The four shapes a routed selection can take, one per control path of
`AgentRouter.route`. -/
theorem route_cases (cap : CapEnv) (req : AgentRequest) :
    AgentRouter.route cap req = routerFallback
    ∨ AgentRouter.route cap req = routerScaffold req
    ∨ AgentRouter.route cap req = routerScaffold req ++ ["rag_lookup_agent"]
    ∨ ∃ experts, AgentRouter.route cap req
        = routerExpand (addExperts (routerScaffold req) experts) := by
  cases hgen : cap.generateText (routerPrompt req) 0 with
  | error e => exact .inl (by simp only [AgentRouter.route, hgen])
  | ok t =>
    cases hl : cap.loads (cleanText t) with
    | error u =>
      by_cases hr : "rag_lookup_agent" ∈ routerScaffold req
      · refine .inr (.inl ?_)
        simp only [AgentRouter.route, hgen, hl]
        rw [if_pos hr]
      · refine .inr (.inr (.inl ?_))
        simp only [AgentRouter.route, hgen, hl]
        rw [if_neg hr]
    | ok data =>
      cases data with
      | obj o =>
        cases hit : pyIter (objGetD o "experts" (.arr [])) with
        | error e => exact .inl (by simp only [AgentRouter.route, hgen, hl, hit])
        | ok experts =>
          exact .inr (.inr (.inr ⟨experts, by simp only [AgentRouter.route, hgen, hl, hit]⟩))
      | str s => exact .inl (by simp only [AgentRouter.route, hgen, hl])
      | num q => exact .inl (by simp only [AgentRouter.route, hgen, hl])
      | boolean b => exact .inl (by simp only [AgentRouter.route, hgen, hl])
      | null => exact .inl (by simp only [AgentRouter.route, hgen, hl])
      | arr xs => exact .inl (by simp only [AgentRouter.route, hgen, hl])

/-- Every branch of the router yields a selection headed by `safety_agent`. -/
theorem route_shape (cap : CapEnv) (req : AgentRequest) :
    ∃ tl, AgentRouter.route cap req = "safety_agent" :: tl := by
  obtain ⟨tl0, hscaff⟩ := routerScaffold_shape req
  rcases route_cases cap req with h | h | h | ⟨experts, h⟩
  · exact ⟨["rag_lookup_agent"], h⟩
  · rw [h, hscaff]
    exact ⟨tl0, rfl⟩
  · rw [h, hscaff]
    exact ⟨tl0 ++ ["rag_lookup_agent"], rfl⟩
  · obtain ⟨tl1, h1⟩ := addExperts_extends experts (routerScaffold req)
    obtain ⟨tl2, h2⟩ := routerExpand_extends (addExperts (routerScaffold req) experts)
    rw [h, h2, h1, hscaff]
    exact ⟨tl0 ++ tl1 ++ tl2, by simp⟩

/-- The Safety agent belongs to every routed selection. -/
theorem safety_mem_route (cap : CapEnv) (req : AgentRequest) :
    "safety_agent" ∈ AgentRouter.route cap req := by
  obtain ⟨tl, h⟩ := route_shape cap req
  rw [h]
  exact List.mem_cons_self _ _

/-- Every routed name is a registered agent key. -/
theorem route_subset_keys (cap : CapEnv) (req : AgentRequest) :
    ∀ n ∈ AgentRouter.route cap req, n ∈ agentKeys := by
  intro n hn
  have hscaffKeys : ∀ x ∈ routerScaffold req, x ∈ agentKeys := by
    intro x hx
    rcases routerScaffold_mem req x hx with rfl | rfl <;> decide
  have hfb : ∀ x ∈ routerFallback, x ∈ agentKeys := by
    intro x hx
    rcases (by simpa [routerFallback] using hx :
        x = "safety_agent" ∨ x = "rag_lookup_agent") with rfl | rfl <;> decide
  rcases route_cases cap req with h | h | h | ⟨experts, h⟩
  · exact hfb n (h ▸ hn)
  · exact hscaffKeys n (h ▸ hn)
  · rw [h] at hn
    rcases List.mem_append.1 hn with hn | hn
    · exact hscaffKeys n hn
    · simp only [List.mem_singleton] at hn
      subst hn
      decide
  · rw [h] at hn
    rcases routerExpand_mem _ n hn with hn2 | rfl | rfl
    · rcases addExperts_mem experts _ n hn2 with hn3 | hn3
      · exact hscaffKeys n hn3
      · rcases (by simpa [routerMenu] using hn3 :
            n = "symptoms_agent" ∨ n = "first_aid_agent" ∨ n = "pediatric_agent"
              ∨ n = "rag_lookup_agent") with rfl | rfl | rfl | rfl <;> decide
    · decide
    · decide

/-- Value of the router when the classification capability call raises. -/
theorem route_eq_of_genError (cap : CapEnv) (req : AgentRequest) (e : String)
    (hgen : cap.generateText (routerPrompt req) 0 = .error e) :
    AgentRouter.route cap req = routerFallback := by
  simp only [AgentRouter.route, hgen]

/-- Value of the router when the capability call returns text that fails
JSON parsing: RagLookup is appended to the scaffold (which never already
contains it). -/
theorem route_eq_of_decodeError (cap : CapEnv) (req : AgentRequest) (t : String)
    (hgen : cap.generateText (routerPrompt req) 0 = .ok t)
    (hl : cap.loads (cleanText t) = .error ()) :
    AgentRouter.route cap req = routerScaffold req ++ ["rag_lookup_agent"] := by
  have hr : ¬"rag_lookup_agent" ∈ routerScaffold req := by
    intro hm
    rcases routerScaffold_mem req _ hm with h | h <;> simp at h
  simp only [AgentRouter.route, hgen, hl]
  rw [if_neg hr]

/-- Value of the router on a successful classification. -/
theorem route_eq_of_classified (cap : CapEnv) (req : AgentRequest) (t : String)
    (o : JsonObj) (experts : List JsonVal)
    (hgen : cap.generateText (routerPrompt req) 0 = .ok t)
    (hl : cap.loads (cleanText t) = .ok (.obj o))
    (hit : pyIter (objGetD o "experts" (.arr [])) = .ok experts) :
    AgentRouter.route cap req = routerExpand (addExperts (routerScaffold req) experts) := by
  simp only [AgentRouter.route, hgen, hl, hit]

/-- C3 (amended): when the classification capability call raises, `route`
returns exactly the fixed fallback `[safety_agent, rag_lookup_agent]`; when
the call succeeds but its output fails JSON parsing, `route` instead returns
the deterministic scaffold built so far (safety, plus image analysis when
image data is present) with `rag_lookup_agent` appended — which equals the
fixed fallback only when no image data is present.  In both cases `route`
returns normally rather than raising (it is a total function). -/
theorem C3_router_error_fallback (cap : CapEnv) (req : AgentRequest) :
    (∀ e, cap.generateText (routerPrompt req) 0 = .error e →
      AgentRouter.route cap req = routerFallback)
    ∧ (∀ t, cap.generateText (routerPrompt req) 0 = .ok t →
      cap.loads (cleanText t) = .error () →
      AgentRouter.route cap req = routerScaffold req ++ ["rag_lookup_agent"]) :=
  ⟨fun e he => route_eq_of_genError cap req e he,
   fun t ht hl => route_eq_of_decodeError cap req t ht hl⟩

/-- C3 witness: on a capability failure the fallback pair is returned, and on
a plain-text (non-JSON) classification answer the scaffold plus RagLookup is
returned. -/
theorem C3_router_error_fallback_witness :
    AgentRouter.route wEnvErr wReqPlain = routerFallback
    ∧ AgentRouter.route wEnvNoJson wReqPlain
        = routerScaffold wReqPlain ++ ["rag_lookup_agent"] :=
  ⟨(C3_router_error_fallback wEnvErr wReqPlain).1 "boom" rfl,
   (C3_router_error_fallback wEnvNoJson wReqPlain).2 "not json" rfl rfl⟩

/-- C3 counterexample: for a request with image data whose classification
output fails JSON parsing — an error case of the claim — the router returns
`[safety_agent, image_analysis_agent, rag_lookup_agent]`, not the fixed
fallback pair the claim requires. -/
theorem C3_counterexample :
    wEnvNoJson.generateText (routerPrompt wReqImg) 0 = .ok "not json"
    ∧ wEnvNoJson.loads (cleanText "not json") = .error ()
    ∧ AgentRouter.route wEnvNoJson wReqImg
        = ["safety_agent", "image_analysis_agent", "rag_lookup_agent"]
    ∧ AgentRouter.route wEnvNoJson wReqImg ≠ routerFallback := by
  refine ⟨rfl, rfl, rfl, ?_⟩
  intro h
  rw [(by rfl : AgentRouter.route wEnvNoJson wReqImg
    = ["safety_agent", "image_analysis_agent", "rag_lookup_agent"])] at h
  simp [routerFallback] at h

/-- C7 (amended): every routed selection has `safety_agent` as its first
element; and for a request containing image data the selection contains
`image_analysis_agent`, except when the router hit its outer error fallback
(capability call raised, classification data not a dict, or a non-iterable
experts value), in which case the selection is exactly the fixed fallback
pair, which omits the image agent. -/
theorem C7_safety_first_image_routed (cap : CapEnv) (req : AgentRequest) :
    (AgentRouter.route cap req).head? = some "safety_agent"
    ∧ (optStrTruthy req.image_base64 = true →
      "image_analysis_agent" ∈ AgentRouter.route cap req
      ∨ AgentRouter.route cap req = routerFallback) := by
  constructor
  · obtain ⟨tl, h⟩ := route_shape cap req
    rw [h]
    rfl
  · intro himg
    have hmem : "image_analysis_agent" ∈ routerScaffold req := by
      simp [routerScaffold, himg]
    rcases route_cases cap req with h | h | h | ⟨experts, h⟩
    · exact .inr h
    · exact .inl (h ▸ hmem)
    · exact .inl (h ▸ List.mem_append_left _ hmem)
    · refine .inl ?_
      rw [h]
      obtain ⟨tl2, h2⟩ := routerExpand_extends (addExperts (routerScaffold req) experts)
      rw [h2]
      exact List.mem_append_left _ (addExperts_mem_left experts _ _ hmem)

/-- C7 witness: for an image request with non-JSON classification output the
selection is headed by Safety and contains the image agent. -/
theorem C7_safety_first_image_routed_witness :
    (AgentRouter.route wEnvNoJson wReqImg).head? = some "safety_agent"
    ∧ ("image_analysis_agent" ∈ AgentRouter.route wEnvNoJson wReqImg
      ∨ AgentRouter.route wEnvNoJson wReqImg = routerFallback) :=
  ⟨(C7_safety_first_image_routed wEnvNoJson wReqImg).1,
   (C7_safety_first_image_routed wEnvNoJson wReqImg).2 rfl⟩

/-- C7 counterexample: a request with image data whose classification
capability call raises is routed to the fixed fallback pair, which does not
contain `image_analysis_agent` — refuting the unconditional claim that image
requests always select the image agent. -/
theorem C7_counterexample :
    optStrTruthy wReqImg.image_base64 = true
    ∧ AgentRouter.route wEnvErr wReqImg = routerFallback
    ∧ ¬"image_analysis_agent" ∈ AgentRouter.route wEnvErr wReqImg := by
  refine ⟨rfl, rfl, ?_⟩
  intro h
  rw [(by rfl : AgentRouter.route wEnvErr wReqImg = routerFallback)] at h
  simp [routerFallback] at h

/-- C8 (confirmed): in a selection produced by a successful classification,
Symptoms brings Triage with it (exactly one occurrence, even when the
classifier lists Symptoms repeatedly), and FirstAid brings RagLookup with it
(also exactly once) — each expansion firing only when its target is not
already present. -/
theorem C8_expansion_rules (cap : CapEnv) (req : AgentRequest) (t : String)
    (o : JsonObj) (experts : List JsonVal)
    (hgen : cap.generateText (routerPrompt req) 0 = .ok t)
    (hl : cap.loads (cleanText t) = .ok (.obj o))
    (hit : pyIter (objGetD o "experts" (.arr [])) = .ok experts) :
    ("symptoms_agent" ∈ AgentRouter.route cap req →
      "triage_agent" ∈ AgentRouter.route cap req
      ∧ List.count "triage_agent" (AgentRouter.route cap req) = 1)
    ∧ ("first_aid_agent" ∈ AgentRouter.route cap req →
      "rag_lookup_agent" ∈ AgentRouter.route cap req
      ∧ List.count "rag_lookup_agent" (AgentRouter.route cap req) = 1) := by
  have hroute := route_eq_of_classified cap req t o experts hgen hl hit
  set s2 := addExperts (routerScaffold req) experts with hs2
  have htriage2 : ¬"triage_agent" ∈ s2 := by
    intro hm
    rcases addExperts_mem experts _ _ hm with hm | hm
    · rcases routerScaffold_mem req _ hm with h | h <;> simp at h
    · simp [routerMenu] at hm
  have hrag0 : ¬"rag_lookup_agent" ∈ routerScaffold req := by
    intro hm
    rcases routerScaffold_mem req _ hm with h | h <;> simp at h
  have hragcount : List.count "rag_lookup_agent" s2 ≤ 1 :=
    addExperts_count_le experts _ _ (by rw [List.count_eq_zero.2 hrag0]; omega)
  rw [hroute]
  simp only [routerExpand]
  by_cases h1 : "symptoms_agent" ∈ s2 ∧ ¬"triage_agent" ∈ s2
  · rw [if_pos h1]
    set s3 := s2 ++ ["triage_agent"] with hs3
    have htc : List.count "triage_agent" s3 = 1 := by
      rw [hs3, List.count_append, List.count_eq_zero.2 htriage2]
      simp
    have hrc : List.count "rag_lookup_agent" s3 = List.count "rag_lookup_agent" s2 := by
      rw [hs3, List.count_append]
      have : List.count "rag_lookup_agent" ["triage_agent"] = 0 :=
        List.count_eq_zero.2 (by simp)
      omega
    by_cases h2 : "first_aid_agent" ∈ s3 ∧ ¬"rag_lookup_agent" ∈ s3
    · rw [if_pos h2]
      constructor
      · intro _
        refine ⟨List.mem_append_left _ (List.mem_append_right _ (by simp)), ?_⟩
        rw [List.count_append, htc, List.count_eq_zero.2 (by simp : ¬"triage_agent" ∈ ["rag_lookup_agent"])]
      · intro _
        refine ⟨List.mem_append_right _ (by simp), ?_⟩
        rw [List.count_append, List.count_eq_zero.2 h2.2]
        simp
    · rw [if_neg h2]
      constructor
      · intro _
        exact ⟨List.mem_append_right _ (by simp), htc⟩
      · intro hfa
        have hfa3 : "first_aid_agent" ∈ s3 := hfa
        have hragmem : "rag_lookup_agent" ∈ s3 := by
          by_contra hcon
          exact h2 ⟨hfa3, hcon⟩
        refine ⟨hragmem, ?_⟩
        have hpos : 0 < List.count "rag_lookup_agent" s3 := List.count_pos_iff.2 hragmem
        omega
  · rw [if_neg h1]
    by_cases h2 : "first_aid_agent" ∈ s2 ∧ ¬"rag_lookup_agent" ∈ s2
    · rw [if_pos h2]
      constructor
      · intro hs
        rcases List.mem_append.1 hs with hs | hs
        · exact absurd ⟨hs, htriage2⟩ h1
        · simp at hs
      · intro _
        refine ⟨List.mem_append_right _ (by simp), ?_⟩
        rw [List.count_append, List.count_eq_zero.2 h2.2]
        simp
    · rw [if_neg h2]
      constructor
      · intro hs
        exact absurd ⟨hs, htriage2⟩ h1
      · intro hfa
        have hragmem : "rag_lookup_agent" ∈ s2 := by
          by_contra hcon
          exact h2 ⟨hfa, hcon⟩
        refine ⟨hragmem, ?_⟩
        have hpos : 0 < List.count "rag_lookup_agent" s2 := List.count_pos_iff.2 hragmem
        omega

/-- C8 witness: a classification listing Symptoms twice plus FirstAid yields
a selection with exactly one Triage and exactly one RagLookup. -/
theorem C8_expansion_rules_witness :
    ("symptoms_agent" ∈ AgentRouter.route wEnvExperts wReqPlain
      ∧ List.count "triage_agent" (AgentRouter.route wEnvExperts wReqPlain) = 1)
    ∧ ("first_aid_agent" ∈ AgentRouter.route wEnvExperts wReqPlain
      ∧ List.count "rag_lookup_agent" (AgentRouter.route wEnvExperts wReqPlain) = 1) := by
  have h := C8_expansion_rules wEnvExperts wReqPlain "not json"
    [("experts", JsonVal.arr [JsonVal.str "symptoms_agent", JsonVal.str "symptoms_agent",
      JsonVal.str "first_aid_agent", JsonVal.str "unknown_agent"])]
    [JsonVal.str "symptoms_agent", JsonVal.str "symptoms_agent",
      JsonVal.str "first_aid_agent", JsonVal.str "unknown_agent"]
    rfl rfl rfl
  exact ⟨⟨by decide, (h.1 (by decide)).2⟩, ⟨by decide, (h.2 (by decide)).2⟩⟩

/-! Helper lemmas about the synthesizer urgency fold. -/

/-- One synthesis step never downgrades RED. -/
theorem synthStep_red (acc : String × String) (item : TraceEntry) (h : acc.2 = "RED") :
    (synthStep acc item).2 = "RED" := by
  simp only [synthStep]
  split
  · split_ifs with h1 h2 h3
    · rfl
    · exact absurd h h3.2
    · exact h
    · exact h
  · exact h

/-- The urgency component of the synthesis fold never downgrades RED. -/
theorem foldl_synthStep_red : ∀ (trace : List TraceEntry) (acc : String × String),
    acc.2 = "RED" → (trace.foldl synthStep acc).2 = "RED"
  | [], _, h => h
  | item :: rest, acc, h => by
    rw [List.foldl_cons]
    exact foldl_synthStep_red rest _ (synthStep_red acc item h)

/-- Without a triage entry the fold leaves the urgency untouched. -/
theorem foldl_synthStep_no_triage : ∀ (trace : List TraceEntry) (acc : String × String),
    (∀ e ∈ trace, e.agent ≠ "triage_agent") → (trace.foldl synthStep acc).2 = acc.2
  | [], _, _ => rfl
  | item :: rest, acc, h => by
    rw [List.foldl_cons]
    rw [foldl_synthStep_no_triage rest _ (fun e he => h e (List.mem_cons_of_mem _ he))]
    simp only [synthStep]
    split
    · rw [if_neg (fun hc => (h item (List.mem_cons_self _ _)) hc.1)]
    · rfl

/-- A RED triage entry anywhere in the trace forces the fold to RED. -/
theorem foldl_synthStep_mem_red : ∀ (trace : List TraceEntry) (acc : String × String)
    (e : TraceEntry) (o : JsonObj), e ∈ trace → e.agent = "triage_agent" →
    e.data = some o → alistLookup o "level" = some (.str "RED") →
    (trace.foldl synthStep acc).2 = "RED"
  | [], _, e, _, hmem, _, _, _ => absurd hmem (List.not_mem_nil e)
  | item :: rest, acc, e, o, hmem, hag, hd, hlv => by
    rw [List.foldl_cons]
    rcases List.mem_cons.1 hmem with rfl | hmem2
    · apply foldl_synthStep_red
      simp only [synthStep, hd]
      have hno : ¬o.isEmpty = true := by
        cases hdo : o with
        | nil => rw [hdo] at hlv; simp [alistLookup] at hlv
        | cons a tl => simp [hdo]
      rw [if_pos ⟨hag, hno⟩]
      have hlevel : levelOf o = some "RED" := by
        simp [levelOf, objGetD, hlv]
      rw [if_pos hlevel]
    · exact foldl_synthStep_mem_red rest _ e o hmem2 hag hd hlv

/-- C2 (confirmed): the urgency the synthesizer returns is RED whenever the
trace holds a triage entry whose structured data has level RED, regardless
of every other entry; it is GREEN whenever the trace holds no triage entry;
and the derivation is monotonic — an accumulator already at RED is never
lowered by any further trace entries. -/
theorem C2_urgency_derivation :
    (∀ (env : OrchEnv) (req : AgentRequest) (trace : List TraceEntry)
       (fin : FinalResponse) (e : TraceEntry) (o : JsonObj),
      e ∈ trace → e.agent = "triage_agent" → e.data = some o →
      alistLookup o "level" = some (.str "RED") →
      MainAgent.synthesizeResponse env req trace = .ok fin →
      fin.urgency_level = "RED")
    ∧ (∀ (env : OrchEnv) (req : AgentRequest) (trace : List TraceEntry)
        (fin : FinalResponse),
      (∀ e ∈ trace, e.agent ≠ "triage_agent") →
      MainAgent.synthesizeResponse env req trace = .ok fin →
      fin.urgency_level = "GREEN")
    ∧ (∀ (trace : List TraceEntry) (ctx : String),
      (trace.foldl synthStep (ctx, "RED")).2 = "RED") := by
  refine ⟨?_, ?_, fun trace ctx => foldl_synthStep_red trace (ctx, "RED") rfl⟩
  · intro env req trace fin e o hmem hag hd hlv hok
    simp only [MainAgent.synthesizeResponse] at hok
    split at hok
    · cases hok
    · cases hok
      exact foldl_synthStep_mem_red trace _ e o hmem hag hd hlv
  · intro env req trace fin hno hok
    simp only [MainAgent.synthesizeResponse] at hok
    split at hok
    · cases hok
    · cases hok
      exact foldl_synthStep_no_triage trace _ hno

/-- C2 witness: a trace with a RED triage entry synthesizes to urgency RED, a
trace without triage synthesizes to GREEN, and folding further entries over
an accumulator at RED keeps RED. -/
theorem C2_urgency_derivation_witness :
    wFinRed.urgency_level = "RED"
    ∧ wFinGreen.urgency_level = "GREEN"
    ∧ (wTraceRed.foldl synthStep ("x", "RED")).2 = "RED" := by
  refine ⟨?_, ?_, C2_urgency_derivation.2.2 wTraceRed "x"⟩
  · exact C2_urgency_derivation.1 wOEnvSynth wReqPlain wTraceRed wFinRed
      { agent := "triage_agent", ok := true, result := some "t",
        data := some [("level", JsonVal.str "RED")] }
      [("level", JsonVal.str "RED")]
      (List.Mem.tail _ (List.Mem.head _)) rfl rfl rfl rfl
  · exact C2_urgency_derivation.2.1 wOEnvSynth wReqPlain wTraceNoTriage wFinGreen
      (by intro e he; simp [wTraceNoTriage] at he; subst he; decide) rfl

/-! Helper lemmas about dict operations and the merge step. -/

/-- Lookup distributes over append: the left list wins when it has the key. -/
theorem alistLookup_append {β : Type} : ∀ (l1 l2 : List (String × β)) (k : String),
    alistLookup (l1 ++ l2) k =
      match alistLookup l1 k with
      | some v => some v
      | none => alistLookup l2 k
  | [], _, _ => rfl
  | (k1, v1) :: t, l2, k => by
    by_cases hk : k1 = k
    · simp [alistLookup, hk]
    · simp [alistLookup, hk, alistLookup_append t l2 k]

/-- Overwriting key `k` in place leaves every other key alone. -/
theorem lookup_map_set_ne : ∀ (o : JsonObj) (k : String) (v : JsonVal) (k2 : String),
    k2 ≠ k →
    alistLookup (o.map (fun kv => if kv.1 = k then (k, v) else kv)) k2 = alistLookup o k2
  | [], _, _, _, _ => rfl
  | (k1, v1) :: t, k, v, k2, h => by
    by_cases hk : k1 = k
    · have hhead : (if (k1, v1).1 = k then (k, v) else (k1, v1)) = (k, v) := by
        simp [hk]
      rw [List.map_cons, hhead]
      have hne2 : ¬k = k2 := fun hh => h hh.symm
      have hne1 : ¬k1 = k2 := fun hh => h (hk.symm.trans hh).symm
      simp only [alistLookup, if_neg hne2, if_neg hne1]
      exact lookup_map_set_ne t k v k2 h
    · have hhead : (if (k1, v1).1 = k then (k, v) else (k1, v1)) = (k1, v1) := by
        simp [hk]
      rw [List.map_cons, hhead]
      simp only [alistLookup]
      by_cases hk2 : k1 = k2
      · rw [if_pos hk2, if_pos hk2]
      · rw [if_neg hk2, if_neg hk2]
        exact lookup_map_set_ne t k v k2 h

/-- Overwriting key `k` in place makes lookup of `k` return the new value. -/
theorem lookup_map_set_self : ∀ (o : JsonObj) (k : String) (v : JsonVal),
    (alistLookup o k).isSome = true →
    alistLookup (o.map (fun kv => if kv.1 = k then (k, v) else kv)) k = some v
  | [], k, v, h => by simp [alistLookup] at h
  | (k1, v1) :: t, k, v, h => by
    by_cases hk : k1 = k
    · have hhead : (if (k1, v1).1 = k then (k, v) else (k1, v1)) = (k, v) := by
        simp [hk]
      rw [List.map_cons, hhead]
      simp [alistLookup]
    · have hhead : (if (k1, v1).1 = k then (k, v) else (k1, v1)) = (k1, v1) := by
        simp [hk]
      have h2 : (alistLookup t k).isSome = true := by
        simpa [alistLookup, hk] using h
      rw [List.map_cons, hhead]
      simp only [alistLookup, if_neg hk]
      exact lookup_map_set_self t k v h2

/-- `d[k] = v` then `d[k]` returns `v`. -/
theorem lookup_dictSet_self (o : JsonObj) (k : String) (v : JsonVal) :
    alistLookup (dictSet o k v) k = some v := by
  unfold dictSet
  by_cases h : (alistLookup o k).isSome = true
  · rw [if_pos h]
    exact lookup_map_set_self o k v h
  · rw [if_neg h]
    have hnone : alistLookup o k = none := by
      cases hx : alistLookup o k
      · rfl
      · rw [hx] at h; simp at h
    rw [alistLookup_append, hnone]
    simp [alistLookup]

/-- `d[k] = v` leaves other keys unchanged. -/
theorem lookup_dictSet_ne (o : JsonObj) (k : String) (v : JsonVal) (k2 : String)
    (h : k2 ≠ k) : alistLookup (dictSet o k v) k2 = alistLookup o k2 := by
  unfold dictSet
  by_cases hs : (alistLookup o k).isSome = true
  · rw [if_pos hs]
    exact lookup_map_set_ne o k v k2 h
  · rw [if_neg hs]
    rw [alistLookup_append]
    cases hx : alistLookup o k2 with
    | none =>
      have hne : ¬k = k2 := fun hh => h hh.symm
      simp [alistLookup, hne]
    | some v2 => rfl

/-- Keys not assigned by `d.update(upd)` keep their value. -/
theorem lookup_dictUpdate_not_mem : ∀ (upd base : JsonObj) (k : String),
    ¬k ∈ upd.map Prod.fst →
    alistLookup (dictUpdate base upd) k = alistLookup base k
  | [], _, _, _ => rfl
  | (k1, v1) :: t, base, k, h => by
    have hk : k ≠ k1 := fun hh => h (by simp [hh])
    rw [show dictUpdate base ((k1, v1) :: t) = dictUpdate (dictSet base k1 v1) t from rfl]
    rw [lookup_dictUpdate_not_mem t _ k (fun hh => h (by simp at hh ⊢; exact .inr hh))]
    exact lookup_dictSet_ne base k1 v1 k hk

/-- When the update keys are distinct, `d.update(upd)` makes each updated key
hold its assigned value. -/
theorem lookup_dictUpdate_mem : ∀ (upd base : JsonObj) (k : String) (v : JsonVal),
    (upd.map Prod.fst).Nodup → (k, v) ∈ upd →
    alistLookup (dictUpdate base upd) k = some v
  | [], _, _, _, _, hmem => absurd hmem (List.not_mem_nil _)
  | (k1, v1) :: t, base, k, v, hnd, hmem => by
    rw [show dictUpdate base ((k1, v1) :: t) = dictUpdate (dictSet base k1 v1) t from rfl]
    rw [List.map_cons] at hnd
    have hnd2 := List.nodup_cons.1 hnd
    rcases List.mem_cons.1 hmem with heq | hmem2
    · injection heq with h1 h2
      subst h1
      subst h2
      rw [lookup_dictUpdate_not_mem t _ k hnd2.1]
      exact lookup_dictSet_self base k v
    · exact lookup_dictUpdate_mem t _ k v hnd2.2 hmem2

/-- The keys of the stage-1 context update are a sublist of the stage names. -/
theorem stage1ContextUpdate_keys_sublist : ∀ (pairs : List (String × AgentOutcome)),
    ((stage1ContextUpdate pairs).map Prod.fst).Sublist (pairs.map Prod.fst)
  | [] => List.Sublist.slnil
  | p :: rest => by
    cases hp : p.2 with
    | resp r =>
      cases hsd : r.structured_data with
      | some o =>
        by_cases ho : o.isEmpty = true
        · simp only [stage1ContextUpdate, hp, hsd, if_pos ho, List.map_cons]
          exact (stage1ContextUpdate_keys_sublist rest).cons _
        · simp only [stage1ContextUpdate, hp, hsd, if_neg ho, List.map_cons]
          exact (stage1ContextUpdate_keys_sublist rest).cons₂ _
      | none =>
        simp only [stage1ContextUpdate, hp, hsd, List.map_cons]
        exact (stage1ContextUpdate_keys_sublist rest).cons _
    | exn m =>
      simp only [stage1ContextUpdate, hp, List.map_cons]
      exact (stage1ContextUpdate_keys_sublist rest).cons _

/-- Every truthy successful stage-1 response is recorded in the context
update under its agent name. -/
theorem mem_stage1ContextUpdate : ∀ (pairs : List (String × AgentOutcome))
    (name : String) (r : AgentResponse) (o : JsonObj),
    (name, AgentOutcome.resp r) ∈ pairs → r.structured_data = some o →
    ¬o.isEmpty = true → (name, JsonVal.obj o) ∈ stage1ContextUpdate pairs
  | [], _, _, _, hmem, _, _ => absurd hmem (List.not_mem_nil _)
  | p :: rest, name, r, o, hmem, hsd, ho => by
    rcases List.mem_cons.1 hmem with heq | hmem2
    · rw [← heq]
      simp only [stage1ContextUpdate, hsd, if_neg ho]
      exact List.mem_cons_self _ _
    · have hrec := mem_stage1ContextUpdate rest name r o hmem2 hsd ho
      cases hp : p.2 with
      | resp r2 =>
        cases hsd2 : r2.structured_data with
        | some o2 =>
          by_cases ho2 : o2.isEmpty = true
          · simpa only [stage1ContextUpdate, hp, hsd2, if_pos ho2] using hrec
          · simp only [stage1ContextUpdate, hp, hsd2, if_neg ho2]
            exact List.mem_cons_of_mem _ hrec
        | none => simpa only [stage1ContextUpdate, hp, hsd2] using hrec
      | exn m => simpa only [stage1ContextUpdate, hp] using hrec

/-- A stage with no RagLookup pair contributes no chunks. -/
theorem stage1RagChunks_no_rag : ∀ (pairs : List (String × AgentOutcome)),
    (∀ p ∈ pairs, p.1 ≠ "rag_lookup_agent") → stage1RagChunks pairs = .ok []
  | [], _ => rfl
  | p :: rest, h => by
    have hc : ragContribution p = .ok [] := by
      cases hp : p.2 with
      | resp r =>
        simp only [ragContribution, hp]
        rw [if_neg (fun hc2 => h p (List.mem_cons_self _ _) hc2.1)]
      | exn m => simp only [ragContribution, hp]
    simp only [stage1RagChunks, hc,
      stage1RagChunks_no_rag rest (fun q hq => h q (List.mem_cons_of_mem _ hq))]
    rfl

/-- With distinct stage names, a RagLookup response holding a chunks list is
the exact value accumulated into `rag_chunks`. -/
theorem stage1RagChunks_single : ∀ (pairs : List (String × AgentOutcome))
    (r : AgentResponse) (o : JsonObj) (cs : List JsonVal),
    (pairs.map Prod.fst).Nodup →
    ("rag_lookup_agent", AgentOutcome.resp r) ∈ pairs →
    r.structured_data = some o → alistLookup o "chunks" = some (.arr cs) →
    stage1RagChunks pairs = .ok cs
  | [], _, _, _, _, hmem, _, _ => absurd hmem (List.not_mem_nil _)
  | p :: rest, r, o, cs, hnd, hmem, hsd, hch => by
    rw [List.map_cons] at hnd
    have hnd2 := List.nodup_cons.1 hnd
    have hno : ¬o.isEmpty = true := by
      cases hdo : o with
      | nil => rw [hdo] at hch; simp [alistLookup] at hch
      | cons a tl => simp [hdo]
    have hoemp : o.isEmpty = false := by
      cases hh : o.isEmpty
      · rfl
      · exact absurd hh hno
    rcases List.mem_cons.1 hmem with heq | hmem2
    · have hc : ragContribution p = .ok cs := by
        rw [← heq]
        simp [ragContribution, objTruthy, objGetD, hsd, hch, hoemp, pyIter]
      have hrest : stage1RagChunks rest = .ok [] := by
        refine stage1RagChunks_no_rag rest (fun q hq hq1 => ?_)
        have : "rag_lookup_agent" ∈ rest.map Prod.fst := List.mem_map.2 ⟨q, hq, hq1⟩
        rw [← heq] at hnd2
        exact hnd2.1 this
      simp only [stage1RagChunks, hc, hrest, List.append_nil]
    · have hp1 : p.1 ≠ "rag_lookup_agent" := by
        intro hq1
        have : "rag_lookup_agent" ∈ rest.map Prod.fst :=
          List.mem_map.2 ⟨_, hmem2, rfl⟩
        exact hnd2.1 (hq1 ▸ this)
      have hc : ragContribution p = .ok [] := by
        cases hp : p.2 with
        | resp r2 =>
          simp only [ragContribution, hp]
          rw [if_neg (fun hc2 => hp1 hc2.1)]
        | exn m => simp only [ragContribution, hp]
      simp only [stage1RagChunks, hc,
        stage1RagChunks_single rest r o cs hnd2.2 hmem2 hsd hch]
      rfl

/-- C6 (amended): after the stage-1 merge and before stage 2, every
successful stage-1 response whose structured data is truthy (a non-empty
dict) is recorded in the request context under its agent name — a response
whose structured data is `None` or the empty dict is skipped by the merge's
truthiness check, see the counterexample — and a successful RagLookup
response whose structured data holds a non-empty chunks list makes
`context["rag_chunks"]` equal exactly that list (in particular chunks
`[A, B]` yield `rag_chunks = [A, B]`). -/
theorem C6_merge_records_context :
    (∀ (req : AgentRequest) (pairs : List (String × AgentOutcome)) (name : String)
       (r : AgentResponse) (o : JsonObj) (ctx2 : JsonObj),
      (pairs.map Prod.fst).Nodup → (name, AgentOutcome.resp r) ∈ pairs →
      r.structured_data = some o → ¬o.isEmpty = true → name ≠ "rag_chunks" →
      MainAgent.mergeContext req pairs = .ok ctx2 →
      alistLookup ctx2 name = some (.obj o))
    ∧ (∀ (req : AgentRequest) (pairs : List (String × AgentOutcome))
        (r : AgentResponse) (o : JsonObj) (cs : List JsonVal),
      (pairs.map Prod.fst).Nodup →
      ("rag_lookup_agent", AgentOutcome.resp r) ∈ pairs →
      r.structured_data = some o → alistLookup o "chunks" = some (.arr cs) →
      cs ≠ [] →
      ∃ ctx2, MainAgent.mergeContext req pairs = .ok ctx2
        ∧ alistLookup ctx2 "rag_chunks" = some (.arr cs)) := by
  constructor
  · intro req pairs name r o ctx2 hnd hmem hsd ho hname hctx
    have hupd : alistLookup (dictUpdate (req.context.getD []) (stage1ContextUpdate pairs))
        name = some (.obj o) :=
      lookup_dictUpdate_mem _ _ name (.obj o)
        ((stage1ContextUpdate_keys_sublist pairs).nodup hnd)
        (mem_stage1ContextUpdate pairs name r o hmem hsd ho)
    unfold MainAgent.mergeContext at hctx
    split at hctx
    · cases hctx
    · cases hctx
      split
      · exact hupd
      · rw [lookup_dictSet_ne _ _ _ _ hname]
        exact hupd
  · intro req pairs r o cs hnd hmem hsd hch hcs
    have hrc := stage1RagChunks_single pairs r o cs hnd hmem hsd hch
    have hemp : cs.isEmpty = false := by
      cases cs
      · exact absurd rfl hcs
      · rfl
    refine ⟨dictSet (dictUpdate (req.context.getD []) (stage1ContextUpdate pairs))
        "rag_chunks" (.arr cs), ?_, lookup_dictSet_self _ _ _⟩
    simp only [MainAgent.mergeContext, hrc]
    rw [if_neg (by simp [hemp])]

/-- C6 witness: merging a Symptoms response and a RagLookup response with
chunks `[A, B]` records the symptoms data under `symptoms_agent` and sets
`rag_chunks` to exactly `[A, B]`. -/
theorem C6_merge_records_context_witness :
    MainAgent.mergeContext wReqPlain wC6Pairs = .ok wC6Ctx
    ∧ alistLookup wC6Ctx "symptoms_agent"
        = some (.obj [("red_flags", JsonVal.boolean false)])
    ∧ alistLookup wC6Ctx "rag_chunks"
        = some (.arr [JsonVal.str "A", JsonVal.str "B"]) := by
  refine ⟨rfl, ?_, ?_⟩
  · exact C6_merge_records_context.1 wReqPlain wC6Pairs "symptoms_agent" wSymResp
      [("red_flags", JsonVal.boolean false)] wC6Ctx
      (by decide) (List.Mem.head _) rfl (by decide) (by decide) rfl
  · obtain ⟨ctx2, hctx, hlook⟩ := C6_merge_records_context.2 wReqPlain wC6Pairs wRagResp
      [("chunks", JsonVal.arr [JsonVal.str "A", JsonVal.str "B"])]
      [JsonVal.str "A", JsonVal.str "B"]
      (by decide) (List.Mem.tail _ (List.Mem.head _)) rfl rfl (List.cons_ne_nil _ _)
    have h2 : (Except.ok ctx2 : Except String JsonObj) = .ok wC6Ctx :=
      hctx.symm.trans rfl
    injection h2 with h3
    rw [← h3]
    exact hlook

/-- C6 counterexample: a successful stage-1 response whose structured data is
the empty dict — produced by the symptoms agent itself when the capability
returns the JSON text of an empty object — is skipped by the truthiness
check `if res.structured_data:` of the merge loop: the merge succeeds, yet
the resulting context holds no entry under the agent's name, refuting the
universal claim that each successful stage-1 response's structuredData is
recorded. -/
theorem C6_counterexample :
    SymptomsAgent.handle wEnvEmptyObj wReqPlain = wEmptyResp
    ∧ wEmptyResp.ok = true
    ∧ wEmptyResp.structured_data = some []
    ∧ MainAgent.mergeContext wReqPlain wC6EmptyPairs = .ok []
    ∧ alistLookup ([] : JsonObj) "symptoms_agent" = none :=
  ⟨rfl, rfl, rfl, rfl, rfl⟩

/-! Helper lemmas about the subagents. -/

/-- The triage body on JSON parse failure. -/
theorem triage_parse_fallback (env : CapEnv) (req : AgentRequest) (t : String)
    (hgen : env.generateText (triagePrompt env req) 0 = .ok t)
    (hl : env.loads (cleanText t) = .error ()) :
    TriageAgent.handle env req = triageParseFailureResponse := by
  simp only [TriageAgent.handle, TriageAgent.run, hgen, hl]
  rfl

/-- The symptoms body on JSON parse failure. -/
theorem symptoms_parse_fallback (env : CapEnv) (req : AgentRequest) (t : String)
    (hgen : env.generateText (symptomsPrompt req) 0 = .ok t)
    (hl : env.loads (cleanText t) = .error ()) :
    SymptomsAgent.handle env req = symptomsParseFailureResponse := by
  simp only [SymptomsAgent.handle, SymptomsAgent.run, hgen, hl]
  rfl

/-- The first-aid body on JSON parse failure. -/
theorem first_aid_parse_fallback (env : CapEnv) (req : AgentRequest) (rc t : String)
    (hctx : firstAidContext req = .ok rc)
    (hgen : env.generateText (firstAidPrompt req rc) 0.2 = .ok t)
    (hl : env.loads (cleanText t) = .error ()) :
    FirstAidAgent.handle env req = firstAidParseFailureResponse t := by
  simp only [FirstAidAgent.handle, FirstAidAgent.run, hctx, hgen, hl]
  rfl

/-- The pediatric body on JSON parse failure. -/
theorem pediatric_parse_fallback (env : CapEnv) (req : AgentRequest) (t : String)
    (hgen : env.generateText (pediatricPrompt req) 0.2 = .ok t)
    (hl : env.loads (cleanText t) = .error ()) :
    PediatricAgent.handle env req = pediatricParseFailureResponse := by
  simp only [PediatricAgent.handle, PediatricAgent.run, hgen, hl]
  rfl

/-- Every successful completion of the triage body carries `ok=true`. -/
theorem triage_run_ok (env : CapEnv) (req : AgentRequest) (r : AgentResponse)
    (h : TriageAgent.run env req = .ok r) : r.ok = true := by
  simp only [TriageAgent.run] at h
  split at h
  · cases h
  · split at h
    · cases h
      rfl
    · cases h

/-- Every successful completion of the symptoms body carries `ok=true`. -/
theorem symptoms_run_ok (env : CapEnv) (req : AgentRequest) (r : AgentResponse)
    (h : SymptomsAgent.run env req = .ok r) : r.ok = true := by
  simp only [SymptomsAgent.run] at h
  split at h
  · cases h
  · split at h
    · split at h
      · cases h
      · split at h
        · cases h
        · cases h
          rfl
    · cases h

/-- Every successful completion of the first-aid body carries `ok=true`. -/
theorem first_aid_run_ok (env : CapEnv) (req : AgentRequest) (r : AgentResponse)
    (h : FirstAidAgent.run env req = .ok r) : r.ok = true := by
  simp only [FirstAidAgent.run] at h
  split at h
  · cases h
  · split at h
    · cases h
    · split at h
      · split at h
        · cases h
        · cases h
          rfl
      · cases h

/-- Every successful completion of the pediatric body carries `ok=true`. -/
theorem pediatric_run_ok (env : CapEnv) (req : AgentRequest) (r : AgentResponse)
    (h : PediatricAgent.run env req = .ok r) : r.ok = true := by
  simp only [PediatricAgent.run] at h
  split at h
  · cases h
  · split at h
    · split at h
      · cases h
      · cases h
        rfl
    · cases h

/-- C4 (amended): on a successful capability call whose output parses to a
dict, the triage score is the level mapping RED→1.0, YELLOW→0.6, GREEN→0.2;
and on a JSON parse failure the deterministic fallback
`{level: YELLOW, action: "Consult a healthcare professional"}` is produced
with `ok=true` and score 0.6 — the mapping applied to the fallback level
YELLOW — rather than a thrown error (the claimed fallback score 0.5 is
actually the `score_map.get` default, reached only when a parsed level lies
outside the mapping table). -/
theorem C4_triage_score_mapping (env : CapEnv) (req : AgentRequest) (t : String) :
    (∀ o : JsonObj,
      env.generateText (triagePrompt env req) 0 = .ok t →
      env.loads (cleanText t) = .ok (.obj o) →
      (alistLookup o "level" = some (.str "RED") →
          (TriageAgent.handle env req).score = some 1)
      ∧ (alistLookup o "level" = some (.str "YELLOW") →
          (TriageAgent.handle env req).score = some 0.6)
      ∧ (alistLookup o "level" = some (.str "GREEN") →
          (TriageAgent.handle env req).score = some 0.2))
    ∧ (env.generateText (triagePrompt env req) 0 = .ok t →
      env.loads (cleanText t) = .error () →
      TriageAgent.handle env req = triageParseFailureResponse) := by
  constructor
  · intro o hgen hl
    have hh : TriageAgent.handle env req =
        { agent_name := "triage_agent", ok := true,
          result_text := some ("Triage Level: " ++ pyStr (objGetD o "level" .null)
            ++ ". " ++ pyStr (objGetD o "action" .null)),
          structured_data := some o,
          score := some (mapGetD score_map (objGetD o "level" (.str "YELLOW")) 0.5) } := by
      simp only [TriageAgent.handle, TriageAgent.run, hgen, hl]
    refine ⟨fun hlv => ?_, fun hlv => ?_, fun hlv => ?_⟩ <;>
      rw [hh] <;> simp [mapGetD, objGetD, hlv, score_map, alistLookup]
  · intro hgen hl
    exact triage_parse_fallback env req t hgen hl

/-- C4 witness: a parsed RED level scores 1.0, and a non-JSON triage output
produces the fallback response with score 0.6. -/
theorem C4_triage_score_mapping_witness :
    (TriageAgent.handle wEnvTriageRed wReqPlain).score = some 1
    ∧ TriageAgent.handle wEnvNoJson wReqPlain = triageParseFailureResponse :=
  ⟨((C4_triage_score_mapping wEnvTriageRed wReqPlain "not json").1
      [("level", JsonVal.str "RED")] rfl rfl).1 rfl,
   (C4_triage_score_mapping wEnvNoJson wReqPlain "not json").2 rfl rfl⟩

/-- C4 counterexample: with a non-JSON capability output the triage fallback
structured result is produced, but its score is 0.6, not the claimed 0.5. -/
theorem C4_counterexample :
    wEnvNoJson.generateText (triagePrompt wEnvNoJson wReqPlain) 0 = .ok "not json"
    ∧ wEnvNoJson.loads (cleanText "not json") = .error ()
    ∧ (TriageAgent.handle wEnvNoJson wReqPlain).structured_data = some triageFallback
    ∧ (TriageAgent.handle wEnvNoJson wReqPlain).score = some 0.6
    ∧ (0.6 : ℚ) ≠ 0.5 :=
  ⟨rfl, rfl, rfl, rfl, by norm_num⟩

/-- C9 (confirmed): without truthy image data the image agent returns the
fixed `ok=false` "No image provided." response for every capability
environment — in particular no capability call can influence (or be required
for) the result. -/
theorem C9_image_requires_image (env : CapEnv) (req : AgentRequest)
    (h : optStrTruthy req.image_base64 = false) :
    ImageAnalysisAgent.handle env req = noImageResponse := by
  simp only [ImageAnalysisAgent.handle, h]
  simp

/-- C9 witness: a plain request gets the fixed refusal regardless of the
environment. -/
theorem C9_image_requires_image_witness :
    ImageAnalysisAgent.handle wEnvNoJson wReqPlain = noImageResponse :=
  C9_image_requires_image wEnvNoJson wReqPlain rfl

/-- C10 (confirmed): for Triage, Symptoms, FirstAid and Pediatric, a
capability call that succeeds but yields unparseable JSON produces an
`ok=true` response carrying the deterministic fallback structured data; and
each of these agents returns `ok=false` exactly when its try-block raised —
never from parse failure alone. -/
theorem C10_parse_failure_keeps_ok :
    (∀ (env : CapEnv) (req : AgentRequest) (t : String),
      env.generateText (triagePrompt env req) 0 = .ok t →
      env.loads (cleanText t) = .error () →
      TriageAgent.handle env req = triageParseFailureResponse)
    ∧ (∀ (env : CapEnv) (req : AgentRequest) (t : String),
      env.generateText (symptomsPrompt req) 0 = .ok t →
      env.loads (cleanText t) = .error () →
      SymptomsAgent.handle env req = symptomsParseFailureResponse)
    ∧ (∀ (env : CapEnv) (req : AgentRequest) (rc t : String),
      firstAidContext req = .ok rc →
      env.generateText (firstAidPrompt req rc) 0.2 = .ok t →
      env.loads (cleanText t) = .error () →
      FirstAidAgent.handle env req = firstAidParseFailureResponse t)
    ∧ (∀ (env : CapEnv) (req : AgentRequest) (t : String),
      env.generateText (pediatricPrompt req) 0.2 = .ok t →
      env.loads (cleanText t) = .error () →
      PediatricAgent.handle env req = pediatricParseFailureResponse)
    ∧ (∀ (env : CapEnv) (req : AgentRequest),
      (TriageAgent.handle env req).ok = false ↔ ∃ e, TriageAgent.run env req = .error e)
    ∧ (∀ (env : CapEnv) (req : AgentRequest),
      (SymptomsAgent.handle env req).ok = false ↔ ∃ e, SymptomsAgent.run env req = .error e)
    ∧ (∀ (env : CapEnv) (req : AgentRequest),
      (FirstAidAgent.handle env req).ok = false ↔ ∃ e, FirstAidAgent.run env req = .error e)
    ∧ (∀ (env : CapEnv) (req : AgentRequest),
      (PediatricAgent.handle env req).ok = false ↔ ∃ e, PediatricAgent.run env req = .error e) := by
  refine ⟨triage_parse_fallback, symptoms_parse_fallback, first_aid_parse_fallback,
    pediatric_parse_fallback, ?_, ?_, ?_, ?_⟩
  · intro env req
    unfold TriageAgent.handle
    cases hr : TriageAgent.run env req with
    | ok r => simp [triage_run_ok env req r hr]
    | error e => simp
  · intro env req
    unfold SymptomsAgent.handle
    cases hr : SymptomsAgent.run env req with
    | ok r => simp [symptoms_run_ok env req r hr]
    | error e => simp
  · intro env req
    unfold FirstAidAgent.handle
    cases hr : FirstAidAgent.run env req with
    | ok r => simp [first_aid_run_ok env req r hr]
    | error e => simp
  · intro env req
    unfold PediatricAgent.handle
    cases hr : PediatricAgent.run env req with
    | ok r => simp [pediatric_run_ok env req r hr]
    | error e => simp

/-- C10 witness: with a non-JSON capability output all four agents return
their fallback `ok=true` responses, and with a raising capability the triage
agent is `ok=false` precisely because its body raised. -/
theorem C10_parse_failure_keeps_ok_witness :
    TriageAgent.handle wEnvNoJson wReqPlain = triageParseFailureResponse
    ∧ SymptomsAgent.handle wEnvNoJson wReqPlain = symptomsParseFailureResponse
    ∧ FirstAidAgent.handle wEnvNoJson wReqPlain = firstAidParseFailureResponse "not json"
    ∧ PediatricAgent.handle wEnvNoJson wReqPlain = pediatricParseFailureResponse
    ∧ ((TriageAgent.handle wEnvErr wReqPlain).ok = false
        ↔ ∃ e, TriageAgent.run wEnvErr wReqPlain = .error e) :=
  ⟨C10_parse_failure_keeps_ok.1 wEnvNoJson wReqPlain "not json" rfl rfl,
   C10_parse_failure_keeps_ok.2.1 wEnvNoJson wReqPlain "not json" rfl rfl,
   C10_parse_failure_keeps_ok.2.2.1 wEnvNoJson wReqPlain "" "not json" rfl rfl rfl,
   C10_parse_failure_keeps_ok.2.2.2.1 wEnvNoJson wReqPlain "not json" rfl rfl,
   C10_parse_failure_keeps_ok.2.2.2.2.1 wEnvErr wReqPlain⟩

/-! Helper lemmas about the orchestrator stages. -/

/-- Stage task creation keeps every name when all names are registered. -/
theorem runNames_eq_self (names : List String) (h : ∀ n ∈ names, n ∈ agentKeys) :
    runNames names = names := by
  unfold runNames
  rw [List.filter_eq_self]
  intro a ha
  simpa using h a ha

/-- Zipping a list with its own image pairs each element with its image. -/
theorem zip_map_self {α β : Type} (l : List α) (f : α → β) :
    l.zip (l.map f) = l.map (fun a => (a, f a)) := by
  induction l with
  | nil => rfl
  | cons a t ih => simp [ih]

/-- When every stage name is registered, the name/outcome pairing is exact. -/
theorem stagePairs_eq_map (run : String → AgentOutcome) (names : List String)
    (h : ∀ n ∈ names, n ∈ agentKeys) :
    stagePairs run names = names.map (fun n => (n, run n)) := by
  unfold stagePairs
  rw [runNames_eq_self names h, zip_map_self]

/-- Every trace entry of a stage comes from a pair whose outcome was a
response, and carries that pair's agent name. -/
theorem mem_stageTrace : ∀ (pairs : List (String × AgentOutcome)) (e : TraceEntry),
    e ∈ stageTrace pairs →
    ∃ p ∈ pairs, ∃ r, p.2 = AgentOutcome.resp r ∧ e.agent = p.1
  | [], e, h => absurd h (List.not_mem_nil e)
  | p :: rest, e, h => by
    cases hp : p.2 with
    | resp r =>
      simp only [stageTrace, hp] at h
      rcases List.mem_cons.1 h with rfl | h2
      · exact ⟨p, List.mem_cons_self _ _, r, hp, rfl⟩
      · obtain ⟨q, hq, r2, hr2, he⟩ := mem_stageTrace rest e h2
        exact ⟨q, List.mem_cons_of_mem _ hq, r2, hr2, he⟩
    | exn m =>
      simp only [stageTrace, hp] at h
      obtain ⟨q, hq, r2, hr2, he⟩ := mem_stageTrace rest e h
      exact ⟨q, List.mem_cons_of_mem _ hq, r2, hr2, he⟩

/-- Evaluation of the two stages once the merge step is known to succeed. -/
theorem runStages_eq (env : OrchEnv) (req : AgentRequest) (trace0 : List TraceEntry)
    (names invoked0 : List String) (ctx2 : JsonObj)
    (hctx : MainAgent.mergeContext req (stagePairs (fun n => env.agentRun n req)
      (names.filter (fun n => n ∈ stage1Set))) = .ok ctx2) :
    MainAgent.runStages env req trace0 names invoked0 =
      (MainAgent.synthesizeResponse env { req with context := some ctx2 }
        (trace0
          ++ stageTrace (stagePairs (fun n => env.agentRun n req)
              (names.filter (fun n => n ∈ stage1Set)))
          ++ stageTrace (stagePairs (fun n => env.agentRun n { req with context := some ctx2 })
              (names.filter (fun n => ¬n ∈ stage1Set)))),
       invoked0 ++ runNames (names.filter (fun n => n ∈ stage1Set))
         ++ runNames (names.filter (fun n => ¬n ∈ stage1Set))) := by
  simp only [MainAgent.runStages, hctx]

/-- The synthesizer returns a final response carrying the given trace
whenever the synthesis capability call succeeds. -/
theorem synthesizeResponse_ok (env : OrchEnv) (req : AgentRequest)
    (trace : List TraceEntry)
    (hsynth : ∀ p, ∃ t, env.cap.generateText p 0.7 = .ok t) :
    ∃ fin, MainAgent.synthesizeResponse env req trace = .ok fin
      ∧ fin.agent_trace = trace := by
  obtain ⟨t, ht⟩ := hsynth (synthPrompt req.message ((trace.foldl synthStep ("", "GREEN")).1))
  exact ⟨{ final_text := t, agent_trace := trace, citations := [],
           urgency_level := (trace.foldl synthStep ("", "GREEN")).2 },
    by simp only [MainAgent.synthesizeResponse, ht], rfl⟩

/-- The two stages of the orchestrator succeed — returning the trace built
from both stages and logging every created task — whenever the merge step
and the synthesis capability call succeed. -/
theorem runStages_spec (env : OrchEnv) (req : AgentRequest) (trace0 : List TraceEntry)
    (names invoked0 : List String)
    (hmerge : ∃ cs, stage1RagChunks (stagePairs (fun n => env.agentRun n req)
        (names.filter (fun n => n ∈ stage1Set))) = .ok cs)
    (hsynth : ∀ p, ∃ t, env.cap.generateText p 0.7 = .ok t) :
    ∃ fin ctx2,
      (MainAgent.runStages env req trace0 names invoked0).1 = .ok fin
      ∧ fin.agent_trace = trace0
          ++ stageTrace (stagePairs (fun n => env.agentRun n req)
              (names.filter (fun n => n ∈ stage1Set)))
          ++ stageTrace (stagePairs (fun n => env.agentRun n { req with context := some ctx2 })
              (names.filter (fun n => ¬n ∈ stage1Set)))
      ∧ (MainAgent.runStages env req trace0 names invoked0).2
          = invoked0 ++ runNames (names.filter (fun n => n ∈ stage1Set))
              ++ runNames (names.filter (fun n => ¬n ∈ stage1Set)) := by
  obtain ⟨cs, hcs⟩ := hmerge
  have hctx : ∃ c, MainAgent.mergeContext req (stagePairs (fun n => env.agentRun n req)
      (names.filter (fun n => n ∈ stage1Set))) = .ok c := by
    simp only [MainAgent.mergeContext, hcs]
    exact ⟨_, rfl⟩
  obtain ⟨ctx2, hctx⟩ := hctx
  rw [runStages_eq env req trace0 names invoked0 ctx2 hctx]
  obtain ⟨fin, hfin, htr⟩ := synthesizeResponse_ok env { req with context := some ctx2 }
    (trace0
      ++ stageTrace (stagePairs (fun n => env.agentRun n req)
          (names.filter (fun n => n ∈ stage1Set)))
      ++ stageTrace (stagePairs (fun n => env.agentRun n { req with context := some ctx2 })
          (names.filter (fun n => ¬n ∈ stage1Set)))) hsynth
  exact ⟨fin, ctx2, hfin, by rw [htr], rfl⟩

/-- C1 (confirmed): when the Safety agent is selected and responds with
`ok=false`, the orchestrator returns immediately: the final text is the
safety result text (or the generic refusal when that text is empty or
missing), the trace holds exactly the single safety entry, the citations
list is empty, the urgency level is RED, and no agent other than Safety was
invoked in the run. -/
theorem C1_safety_gate_short_circuit (env : OrchEnv) (req : AgentRequest)
    (resp : AgentResponse)
    (hsel : "safety_agent" ∈ AgentRouter.route env.cap (withRequestId env.requestId req))
    (hrun : env.agentRun "safety_agent" (withRequestId env.requestId req) = .resp resp)
    (hok : resp.ok = false) :
    MainAgent.handleRun env req =
      (.ok { final_text := pyOr resp.result_text safetyRefusal,
             agent_trace := [{ agent := "safety_agent", ok := false,
                               result := resp.result_text, data := none }],
             citations := [], urgency_level := "RED" },
       ["safety_agent"]) := by
  simp only [MainAgent.handleRun]
  rw [if_pos hsel]
  simp only [hrun, hok]
  simp

/-- C1 witness: a blocking safety response short-circuits the run with the
safety text, a one-entry trace, no citations, urgency RED and only Safety
invoked. -/
theorem C1_safety_gate_short_circuit_witness :
    MainAgent.handleRun wOEnvUnsafe wReqPlain =
      (.ok { final_text := "nope",
             agent_trace := [{ agent := "safety_agent", ok := false,
                               result := some "nope", data := none }],
             citations := [], urgency_level := "RED" },
       ["safety_agent"]) :=
  C1_safety_gate_short_circuit wOEnvUnsafe wReqPlain wSafetyBlock
    (safety_mem_route _ _) rfl rfl

/-- C5 (confirmed): when the safety gate passes and the task of a selected
stage-1 agent raises, that agent contributes no trace entry, the
orchestrator still returns a final response (given well-formed RagLookup
chunks and an available synthesis capability, the raised exception is not
propagated), and every selected stage-2 agent is still invoked. -/
theorem C5_stage1_exception_isolated (env : OrchEnv) (req0 : AgentRequest)
    (name msg : String) (sresp : AgentResponse)
    (hsresp : env.agentRun "safety_agent" (withRequestId env.requestId req0) = .resp sresp)
    (hsok : sresp.ok = true)
    (hstage1 : name ∈ stage1Set)
    (hmemsel : name ∈ AgentRouter.route env.cap (withRequestId env.requestId req0))
    (hexn : env.agentRun name (withRequestId env.requestId req0) = .exn msg)
    (hmerge : ∃ cs, stage1RagChunks (stagePairs
        (fun n => env.agentRun n (withRequestId env.requestId req0))
        (((AgentRouter.route env.cap (withRequestId env.requestId req0)).filter
            (fun n => n ≠ "safety_agent")).filter (fun n => n ∈ stage1Set))) = .ok cs)
    (hsynth : ∀ p, ∃ t, env.cap.generateText p 0.7 = .ok t) :
    (∃ fin, (MainAgent.handleRun env req0).1 = .ok fin
      ∧ ∀ e ∈ fin.agent_trace, e.agent ≠ name)
    ∧ ∀ m ∈ AgentRouter.route env.cap (withRequestId env.requestId req0),
        ¬m ∈ stage1Set → m ∈ (MainAgent.handleRun env req0).2 := by
  have hname_ne_safety : name ≠ "safety_agent" := by
    intro hns
    rw [hns] at hstage1
    simp [stage1Set] at hstage1
  have hkeys := route_subset_keys env.cap (withRequestId env.requestId req0)
  have hrun_eq : MainAgent.handleRun env req0 = MainAgent.runStages env
      (withRequestId env.requestId req0)
      [{ agent := "safety_agent", ok := sresp.ok, result := sresp.result_text, data := none }]
      ((AgentRouter.route env.cap (withRequestId env.requestId req0)).filter
        (fun n => n ≠ "safety_agent"))
      ["safety_agent"] := by
    simp only [MainAgent.handleRun]
    rw [if_pos (safety_mem_route env.cap (withRequestId env.requestId req0))]
    simp only [hsresp, hsok]
    simp
  have hnames_keys : ∀ n ∈ (AgentRouter.route env.cap
      (withRequestId env.requestId req0)).filter (fun n => n ≠ "safety_agent"),
      n ∈ agentKeys := fun n hn => hkeys n (List.mem_of_mem_filter hn)
  have h1keys : ∀ n ∈ ((AgentRouter.route env.cap
      (withRequestId env.requestId req0)).filter (fun n => n ≠ "safety_agent")).filter
      (fun n => n ∈ stage1Set), n ∈ agentKeys :=
    fun n hn => hnames_keys n (List.mem_of_mem_filter hn)
  have h2keys : ∀ n ∈ ((AgentRouter.route env.cap
      (withRequestId env.requestId req0)).filter (fun n => n ≠ "safety_agent")).filter
      (fun n => ¬n ∈ stage1Set), n ∈ agentKeys :=
    fun n hn => hnames_keys n (List.mem_of_mem_filter hn)
  obtain ⟨fin, ctx2, hok, htrace, hinv⟩ := runStages_spec env
    (withRequestId env.requestId req0)
    [{ agent := "safety_agent", ok := sresp.ok, result := sresp.result_text, data := none }]
    ((AgentRouter.route env.cap (withRequestId env.requestId req0)).filter
      (fun n => n ≠ "safety_agent"))
    ["safety_agent"] hmerge hsynth
  rw [hrun_eq]
  constructor
  · refine ⟨fin, hok, ?_⟩
    rw [htrace]
    intro e he
    rcases List.mem_append.1 he with he01 | he2
    · rcases List.mem_append.1 he01 with he0 | he1
      · simp only [List.mem_singleton] at he0
        rw [he0]
        exact fun hc => hname_ne_safety hc.symm
      · rw [stagePairs_eq_map _ _ h1keys] at he1
        obtain ⟨p, hp, r, hpr, hea⟩ := mem_stageTrace _ e he1
        obtain ⟨n, hn, rfl⟩ := List.mem_map.1 hp
        intro hcon
        rw [hea] at hcon
        simp only at hcon
        rw [hcon] at hpr
        rw [hexn] at hpr
        cases hpr
    · rw [stagePairs_eq_map _ _ h2keys] at he2
      obtain ⟨p, hp, r, hpr, hea⟩ := mem_stageTrace _ e he2
      obtain ⟨n, hn, rfl⟩ := List.mem_map.1 hp
      intro hcon
      rw [hea] at hcon
      simp only at hcon
      have hn2 := List.mem_filter.1 hn
      rw [hcon] at hn2
      simp [hstage1] at hn2
  · intro m hm hm2
    rw [hinv]
    by_cases hms : m = "safety_agent"
    · rw [hms]
      simp
    · have hmn : m ∈ (AgentRouter.route env.cap
          (withRequestId env.requestId req0)).filter (fun n => n ≠ "safety_agent") :=
        List.mem_filter.2 ⟨hm, by simp [hms]⟩
      have hm2n : m ∈ ((AgentRouter.route env.cap
          (withRequestId env.requestId req0)).filter (fun n => n ≠ "safety_agent")).filter
          (fun n => ¬n ∈ stage1Set) :=
        List.mem_filter.2 ⟨hmn, by simpa using hm2⟩
      rw [runNames_eq_self _ h2keys]
      exact List.mem_append_right _ hm2n

/-- C5 witness: with Safety passing, the Symptoms task raising, RagLookup
returning chunks and a working synthesis call, the run returns a final
response whose trace has no symptoms entry, and both selected stage-2 agents
(Triage via the expansion rule, FirstAid) are invoked. -/
theorem C5_stage1_exception_isolated_witness :
    (∃ fin, (MainAgent.handleRun wOEnvStage wReqPlain).1 = .ok fin
      ∧ ∀ e ∈ fin.agent_trace, e.agent ≠ "symptoms_agent")
    ∧ ∀ m ∈ AgentRouter.route wOEnvStage.cap (withRequestId wOEnvStage.requestId wReqPlain),
        ¬m ∈ stage1Set → m ∈ (MainAgent.handleRun wOEnvStage wReqPlain).2 :=
  C5_stage1_exception_isolated wOEnvStage wReqPlain "symptoms_agent" "boom" wSafetyPass
    rfl rfl (by decide) (by decide) rfl
    ⟨[JsonVal.str "A", JsonVal.str "B"], rfl⟩
    (fun p => ⟨"not json", rfl⟩)
